import Mathlib

/-!
# Verification of the emfao-light_control Program Engine

Shallow embedding of the LED program scheduler of `emfao-light_control`
(`src/program.cpp`, `src/led.cpp`, `src/pca9685.cpp`) and proofs about it.

Modelling conventions:
* Arduino `unsigned long` (32-bit) arithmetic is `Nat` with explicit wrapping
  (`u32`, `usub32`, `uadd32`); `uint16_t` stores from `int`-valued expressions
  wrap through `toU16`.
* Floating point expressions are modelled over `ℚ` with the decimal literals
  taken exactly (`0.7 = 7/10`, ...).  For the claims proved below no resulting
  value sits close enough to an integer decision boundary for the difference
  between binary doubles and these rationals to change a branch or a stored
  duty value; where a product lands exactly on an integer (e.g. `3500 * 0.6`)
  the double computation rounds to that same integer.
* The math library functions `sin`, `cos`, `exp` and the constant `PI` are
  external to the program; they are passed in as an oracle (`FloatLib`).
  Theorems whose truth depends on their values state the needed range facts
  (all true of the real functions) as hypotheses.
* The shared Arduino pseudo-random generator is an oracle stream (`Rng`);
  `random(lo, hi)` always yields a value in `[lo, hi)`, which the model
  guarantees for every stream.
* The hardware push `applyLedBrightness` is modelled as appending the pushed
  duty value to a trace (`pushHw`).
-/

namespace LightControl

/-- `2^32`, the modulus of Arduino `unsigned long` arithmetic. -/
def U32 : Nat := 4294967296

/-- Reduce a natural number to its `unsigned long` (uint32) value. -/
def u32 (a : Nat) : Nat := a % U32

/-- `uint32` subtraction `a - b` with wrap-around, as in C++ unsigned arithmetic. -/
def usub32 (a b : Nat) : Nat := (u32 a + U32 - u32 b) % U32

/-- `uint32` addition with wrap-around. -/
def uadd32 (a b : Nat) : Nat := (a + b) % U32

/-- Conversion of a C++ `int`-valued expression to `uint16_t` (reduction mod `2^16`). -/
def toU16 (i : Int) : Nat := (i % 65536).toNat

/-- The Arduino `constrain(amt, low, high)` macro on integers. -/
def constrain (x lo hi : Int) : Int := if x < lo then lo else if x > hi then hi else x

/-- Conversion of a C++ float expression to `uint16_t`: truncation toward zero
    (the values actually converted by the program are nonnegative, where
    truncation equals `floor`). -/
def qToU16 (q : ℚ) : Nat := (Int.floor q).toNat % 65536

/-- The shared Arduino pseudo-random source, modelled as an oracle stream of
    draws plus a cursor.  `random(lo, hi)` returns a value in `[lo, hi)`;
    the stream supplies the offset into that range. -/
structure Rng where
  stream : Nat → Int
  idx : Nat

/-- One call to Arduino `random(lo, hi)`: a draw in `[lo, hi)` plus the advanced
    generator. -/
def Rng.next (r : Rng) (lo hi : Int) : Int × Rng :=
  (lo + (r.stream r.idx) % (hi - lo), { r with idx := r.idx + 1 })

/-- The floating-point math library used by the effects (`sin`, `cos`, `exp`,
    `PI`), supplied as an oracle over `ℚ`. -/
structure FloatLib where
  sinq : ℚ → ℚ
  cosq : ℚ → ℚ
  expq : ℚ → ℚ
  piq : ℚ

/-- `ProgramType` enumeration from `program.h`. -/
inductive ProgramType where
  | PROGRAM_NONE
  | PROGRAM_WELDING
  | PROGRAM_HEARTBEAT
  | PROGRAM_BREATHING
  | PROGRAM_SIMPLE_BLINK
  | PROGRAM_TV_FLICKER
  | PROGRAM_FIREBOX_GLOW
  | PROGRAM_CANDLE_FLICKER
  | PROGRAM_FRENCH_CROSSING
  deriving DecidableEq, Repr

export ProgramType (PROGRAM_NONE PROGRAM_WELDING PROGRAM_HEARTBEAT PROGRAM_BREATHING
  PROGRAM_SIMPLE_BLINK PROGRAM_TV_FLICKER PROGRAM_FIREBOX_GLOW PROGRAM_CANDLE_FLICKER
  PROGRAM_FRENCH_CROSSING)

/-- `ProgramState` from `program.h`.  The `JsonDocument parameters` bag is an
    open string-keyed map of numeric values; it is modelled as an association
    list (reading an absent key as an integer yields `0` in ArduinoJson, as
    `getParam` does).  `new ProgramState()` value-initializes every field, which
    is the default value `{}` here. -/
structure ProgramState where
  last_update : Nat := 0
  next_event : Nat := 0
  active : Bool := false
  start_time : Nat := 0
  current_intensity : Nat := 0
  parameters : List (String × Nat) := []
  deriving DecidableEq, Repr

instance : Inhabited ProgramState := ⟨{}⟩

/-- Read a numeric entry of the `parameters` document (absent key reads as 0). -/
def getParam (ps : List (String × Nat)) (k : String) : Nat :=
  match ps.find? (fun p => p.1 = k) with
  | some p => p.2
  | none => 0

/-- Write a numeric entry of the `parameters` document. -/
def setParam (ps : List (String × Nat)) (k : String) (v : Nat) : List (String × Nat) :=
  match ps with
  | [] => [(k, v)]
  | p :: rest => if p.1 = k then (k, v) :: rest else p :: setParam rest k v

/-- The `LED` class from `led.h` / `led.cpp`.  The owning raw pointer
    `ProgramState* program_state_` is modelled as an `Option ProgramState`. -/
structure LED where
  name : String := ""
  brightness : Nat := 0
  enabled : Bool := false
  program_type : ProgramType := PROGRAM_NONE
  program_state : Option ProgramState := none
  deriving DecidableEq, Repr

/-- `LED::MAX_BRIGHTNESS` (12-bit PWM). -/
def LED.MAX_BRIGHTNESS : Nat := 4095

/-- `LED::MIN_BRIGHTNESS`. -/
def LED.MIN_BRIGHTNESS : Nat := 0

/-- `LED::setBrightness` (led.cpp:73): clamp above `MAX_BRIGHTNESS`; the
    argument is a `uint16_t`, hence never negative. -/
def LED.setBrightness (l : LED) (brightness : Nat) : LED :=
  if brightness > LED.MAX_BRIGHTNESS then { l with brightness := LED.MAX_BRIGHTNESS }
  else { l with brightness := brightness }

/-- `LED::setProgram` (led.cpp:82). -/
def LED.setProgram (l : LED) (program_type : ProgramType) (program_state : Option ProgramState) : LED :=
  { l with program_type := program_type, program_state := program_state }

/-- The `LED` copy constructor (led.cpp:46): copies name, brightness, enabled
    flag and program type, but sets the owned runtime-state pointer to null. -/
def LED.copy (other : LED) : LED :=
  { name := other.name, brightness := other.brightness, enabled := other.enabled,
    program_type := other.program_type, program_state := none }

/-- The `LED` assignment operator (led.cpp:54) applied to distinct objects:
    same field-wise behaviour as the copy constructor (the self-assignment
    guard compares object identity, which has no counterpart for pure values). -/
def LED.assignFrom (_this other : LED) : LED :=
  { name := other.name, brightness := other.brightness, enabled := other.enabled,
    program_type := other.program_type, program_state := none }

/-- `PCA9685Module`: the bank of LEDs (its hardware fields play no role in the
    Program Engine model; `led_count_` is the length of the list). -/
structure PCA9685Module where
  leds : List LED
  deriving DecidableEq, Repr

/-- `PCA9685Module::getLedCount`. -/
def PCA9685Module.getLedCount (m : PCA9685Module) : Nat := m.leds.length

/-- `PCA9685Module::getLED` (pca9685.cpp:89): null for an out-of-range index. -/
def PCA9685Module.getLED (m : PCA9685Module) (led_index : Nat) : Option LED :=
  m.leds.get? led_index

/-- `ModuleManager`: the registry of banks. -/
structure ModuleManager where
  modules : List PCA9685Module
  deriving DecidableEq, Repr

/-- `ModuleManager::getModuleCount`. -/
def ModuleManager.getModuleCount (mm : ModuleManager) : Nat := mm.modules.length

/-- `ModuleManager::getModule` (pca9685.cpp:233): null for an out-of-range index. -/
def ModuleManager.getModule (mm : ModuleManager) (index : Nat) : Option PCA9685Module :=
  mm.modules.get? index

/-- `ModuleManager::getLED` (pca9685.cpp:247). -/
def ModuleManager.getLED (mm : ModuleManager) (module_index led_index : Nat) : Option LED :=
  match mm.getModule module_index with
  | none => none
  | some m => m.getLED led_index

/-- In-place mutation of the LED object returned by `getLED` (the C++ code holds
    a pointer into the module's array and writes through it). -/
def ModuleManager.setLED (mm : ModuleManager) (module_index led_index : Nat) (l : LED) : ModuleManager :=
  { modules := mm.modules.set module_index
      (match mm.modules.get? module_index with
       | some m => { leds := m.leds.set led_index l }
       | none => { leds := [] }) }

/-- One record of a duty value pushed to the PWM hardware:
    `(module_index, led_index, stored brightness)`. -/
abbrev HwEntry := Nat × Nat × Nat

/-- `module_manager->applyLedBrightness(i, j)` (pca9685.cpp:321/145): reads the
    LED's stored brightness and transmits it to the PCA9685 chip.  The effects
    call it immediately after mutating the LED in place, so the model appends
    the current brightness of that LED object to the hardware trace. -/
def pushHw (hw : List HwEntry) (i j : Nat) (led : LED) : List HwEntry :=
  hw ++ [(i, j, led.brightness)]

/-- The state the Program Engine acts on: the bank registry, the trace of duty
    values pushed to hardware, and the shared random generator. -/
structure Sys where
  mm : ModuleManager
  hw : List HwEntry
  rng : Rng

/-! ## Effect parameters (program.cpp:31-199) -/

def WELDING_MIN_INTERVAL : Nat := 10
def WELDING_MAX_INTERVAL : Nat := 300
def WELDING_MIN_DURATION : Nat := 10
def WELDING_MAX_DURATION : Nat := 100
def WELDING_MIN_INTENSITY : Nat := 10
def WELDING_MAX_INTENSITY : Nat := 3000

def HEARTBEAT_CYCLE_DURATION : Nat := 1000
def HEARTBEAT_BEAT1_DURATION : Nat := 100
def HEARTBEAT_PAUSE1_DURATION : Nat := 80
def HEARTBEAT_BEAT2_DURATION : Nat := 60
def HEARTBEAT_PAUSE2_DURATION : Nat := 760
def HEARTBEAT_INTENSITY : Nat := 3500

def BREATHING_CYCLE_DURATION : Nat := 4000
def BREATHING_INHALE_DURATION : Nat := 1500
def BREATHING_HOLD_DURATION : Nat := 500
def BREATHING_EXHALE_DURATION : Nat := 1500
def BREATHING_PAUSE_DURATION : Nat := 500
def BREATHING_MAX_INTENSITY : Nat := 4095
def BREATHING_MIN_INTENSITY : Nat := 0

def SIMPLE_BLINK_ON_DURATION : Nat := 1000
def SIMPLE_BLINK_OFF_DURATION : Nat := 1000
def SIMPLE_BLINK_INTENSITY : Nat := 4095

def TV_FLICKER_BASE_INTENSITY : Nat := 800
def TV_FLICKER_MAX_INTENSITY : Nat := 2500
def TV_FLICKER_MIN_INTENSITY : Nat := 200
def TV_FLICKER_MIN_INTERVAL : Nat := 40
def TV_FLICKER_MAX_INTERVAL : Nat := 200
def TV_FLICKER_FLASH_PROBABILITY : Nat := 15
def TV_FLICKER_DIM_PROBABILITY : Nat := 10

def FIREBOX_BASE_INTENSITY : Nat := 2200
def FIREBOX_MAX_INTENSITY : Nat := 4095
def FIREBOX_MIN_INTENSITY : Nat := 1200
def FIREBOX_MIN_INTERVAL : Nat := 60
def FIREBOX_MAX_INTERVAL : Nat := 400
def FIREBOX_EMBER_POP_PROBABILITY : Nat := 15
def FIREBOX_FLAME_SURGE_PROBABILITY : Nat := 8
def FIREBOX_WIND_GUST_PROBABILITY : Nat := 5
def FIREBOX_EMBER_DURATION : Nat := 150
def FIREBOX_SURGE_DURATION : Nat := 800
def FIREBOX_WIND_DURATION : Nat := 1200

def CANDLE_BASE_INTENSITY : Nat := 2800
def CANDLE_MAX_INTENSITY : Nat := 3800
def CANDLE_MIN_INTENSITY : Nat := 1800
def CANDLE_MIN_INTERVAL : Nat := 50
def CANDLE_MAX_INTERVAL : Nat := 300
def CANDLE_STRONG_FLICKER_PROBABILITY : Nat := 12
def CANDLE_DIP_PROBABILITY : Nat := 8

def FRENCH_CROSSING_ON_DURATION : Nat := 500
def FRENCH_CROSSING_OFF_DURATION : Nat := 500
def FRENCH_CROSSING_MAX_INTENSITY : Nat := 4095
def FRENCH_CROSSING_WARMUP_DURATION : Nat := 100
def FRENCH_CROSSING_COOLDOWN_DURATION : Nat := 150
def FRENCH_CROSSING_WARMUP_MIN : Nat := 0

/-! ## The eight effect algorithms (program.cpp:478-983)

Every `update_*_program` function shares the same prologue and epilogue:
fetch the LED (null-check), read its `ProgramState` pointer (the C++
dereferences it without a check; the dispatcher only calls the function when
it is non-null, and the model no-ops on `none`), early-return when fewer than
the effect's refresh interval has elapsed since `last_update`, run the
effect-specific body, and finally store `last_update = current_millis`.
That shared skeleton is factored into `runEffect`; the bodies are the
`*Core` functions. -/

/-- Result of one effect body: the mutated LED and state, the extended
    hardware trace, and the advanced random generator. -/
structure CoreOut where
  led : LED
  st : ProgramState
  hw : List HwEntry
  rng : Rng

/-- The LED value written back at the end of an effect tick: the core's LED
    with its state stored behind the pointer and `last_update = current_millis`
    (the final statement of every `update_*_program`). -/
def writeBackLED (o : CoreOut) (now : Nat) : LED :=
  { o.led with program_state := some { o.st with last_update := u32 now } }

/-- Shared skeleton of the eight `update_*_program` functions (see above). -/
def runEffect (rate : Nat) (core : LED → ProgramState → List HwEntry → Rng → CoreOut)
    (s : Sys) (i j now : Nat) : Sys :=
  match s.mm.getLED i j with
  | none => s
  | some led_info =>
    match led_info.program_state with
    | none => s
    | some state =>
      if usub32 now state.last_update < rate then s
      else
        let o := core led_info state s.hw s.rng
        { mm := s.mm.setLED i j (writeBackLED o now), hw := o.hw, rng := o.rng }

/-- Body of `ProgramManager::update_welding_program` (program.cpp:478).
    `uint16_t variation = random(-200, 201)` stores the signed draw into an
    unsigned 16-bit variable, so a negative draw becomes a value near `2^16`
    (modelled by `toU16`).  The comparison `elapsed_time < duration * 0.7`
    converts the integer to a double; with `duration = 55` the threshold
    `38.5` separates the same integers as the rational `55 * 7/10`. -/
def weldingCore (i j now : Nat) (led : LED) (st : ProgramState) (hw : List HwEntry)
    (rng : Rng) : CoreOut :=
  let trig : CoreOut :=
    if st.active = false ∧ st.next_event ≤ u32 now then
      let p1 := rng.next (WELDING_MIN_INTENSITY : Int) ((WELDING_MAX_INTENSITY : Int) + 1)
      let st1 := { st with active := true, start_time := u32 now, current_intensity := toU16 p1.1 }
      let p2 := p1.2.next (WELDING_MIN_DURATION : Int) ((WELDING_MAX_DURATION : Int) + 1)
      let p3 := p2.2.next (WELDING_MIN_INTERVAL : Int) ((WELDING_MAX_INTERVAL : Int) + 1)
      let st2 := { st1 with next_event := uadd32 now (p2.1.toNat + p3.1.toNat) }
      let led1 := led.setBrightness st2.current_intensity
      ⟨led1, st2, pushHw hw i j led1, p3.2⟩
    else ⟨led, st, hw, rng⟩
  let led := trig.led
  let st := trig.st
  let hw := trig.hw
  let rng := trig.rng
  if st.active = true then
    let elapsed_time := usub32 now st.start_time
    let current_welding_duration := (WELDING_MIN_DURATION + WELDING_MAX_DURATION) / 2
    if (elapsed_time : ℚ) < (current_welding_duration : ℚ) * (7/10) then
      let pv := rng.next (-200) 201
      let variation : Nat := toU16 pv.1
      let current_brightness := (constrain ((st.current_intensity : Int) + (variation : Int)) 0 4095).toNat
      let led1 := led.setBrightness current_brightness
      ⟨led1, st, pushHw hw i j led1, pv.2⟩
    else if elapsed_time < current_welding_duration then
      let fade_progress : ℚ :=
        ((elapsed_time : ℚ) - (current_welding_duration : ℚ) * (7/10)) /
          ((current_welding_duration : ℚ) * (3/10))
      let current_brightness := qToU16 ((st.current_intensity : ℚ) * (1 - fade_progress))
      let led1 := led.setBrightness current_brightness
      ⟨led1, st, pushHw hw i j led1, rng⟩
    else
      let st1 := { st with active := false }
      let led1 := led.setBrightness 0
      ⟨led1, st1, pushHw hw i j led1, rng⟩
  else ⟨led, st, hw, rng⟩

/-- Body of `ProgramManager::update_heartbeat_program` (program.cpp:535).
    The double product `HEARTBEAT_INTENSITY * 0.6` rounds to exactly `2100.0`,
    equal to the rational value used here. -/
def heartbeatCore (i j now : Nat) (led : LED) (st : ProgramState) (hw : List HwEntry)
    (rng : Rng) : CoreOut :=
  let st := if st.start_time = 0 then { st with start_time := u32 now } else st
  let cycle_time := usub32 now st.start_time % HEARTBEAT_CYCLE_DURATION
  let target_brightness : Nat :=
    if cycle_time < HEARTBEAT_BEAT1_DURATION then HEARTBEAT_INTENSITY
    else if cycle_time < HEARTBEAT_BEAT1_DURATION + HEARTBEAT_PAUSE1_DURATION then 0
    else if cycle_time < HEARTBEAT_BEAT1_DURATION + HEARTBEAT_PAUSE1_DURATION +
        HEARTBEAT_BEAT2_DURATION then
      qToU16 ((HEARTBEAT_INTENSITY : ℚ) * (6/10))
    else 0
  let led1 := led.setBrightness target_brightness
  ⟨led1, st, pushHw hw i j led1, rng⟩

/-- Body of `ProgramManager::update_breathing_program` (program.cpp:575). -/
def breathingCore (lib : FloatLib) (i j now : Nat) (led : LED) (st : ProgramState)
    (hw : List HwEntry) (rng : Rng) : CoreOut :=
  let st := if st.start_time = 0 then { st with start_time := u32 now } else st
  let cycle_time := usub32 now st.start_time % BREATHING_CYCLE_DURATION
  let target_brightness : Nat :=
    if cycle_time < BREATHING_INHALE_DURATION then
      let progress : ℚ := (cycle_time : ℚ) / (BREATHING_INHALE_DURATION : ℚ)
      let sine_progress := lib.sinq (progress * lib.piq / 2)
      qToU16 ((BREATHING_MAX_INTENSITY : ℚ) * sine_progress)
    else if cycle_time < BREATHING_INHALE_DURATION + BREATHING_HOLD_DURATION then
      BREATHING_MAX_INTENSITY
    else if cycle_time < BREATHING_INHALE_DURATION + BREATHING_HOLD_DURATION +
        BREATHING_EXHALE_DURATION then
      let exhale_time := cycle_time - BREATHING_INHALE_DURATION - BREATHING_HOLD_DURATION
      let progress : ℚ := (exhale_time : ℚ) / (BREATHING_EXHALE_DURATION : ℚ)
      let sine_progress := lib.cosq (progress * lib.piq / 2)
      qToU16 ((BREATHING_MAX_INTENSITY : ℚ) * sine_progress)
    else BREATHING_MIN_INTENSITY
  let led1 := led.setBrightness target_brightness
  ⟨led1, st, pushHw hw i j led1, rng⟩

/-- Body of `ProgramManager::update_simple_blink_program` (program.cpp:622). -/
def simpleBlinkCore (i j now : Nat) (led : LED) (st : ProgramState) (hw : List HwEntry)
    (rng : Rng) : CoreOut :=
  let st := if st.start_time = 0 then { st with start_time := u32 now } else st
  let cycle_time := usub32 now st.start_time % (SIMPLE_BLINK_ON_DURATION + SIMPLE_BLINK_OFF_DURATION)
  let target_brightness : Nat :=
    if cycle_time < SIMPLE_BLINK_ON_DURATION then SIMPLE_BLINK_INTENSITY else 0
  let led1 := led.setBrightness target_brightness
  ⟨led1, st, pushHw hw i j led1, rng⟩

/-- Body of `ProgramManager::update_tv_flicker_program` (program.cpp:654).
    The float arguments of `random` convert (truncating) to `long`:
    `2500 * 0.8` and `200 * 1.5` both round to exactly `2000.0` and `300.0`
    as doubles, the integers used here via `Rat.floor`. -/
def tvFlickerCore (i j now : Nat) (led : LED) (st : ProgramState) (hw : List HwEntry)
    (rng : Rng) : CoreOut :=
  if st.active = false ∨ st.next_event ≤ u32 now then
    let st := { st with active := true }
    let pr := rng.next 0 100
    let random_value := pr.1
    let pick : ProgramState × Rng :=
      if random_value < (TV_FLICKER_FLASH_PROBABILITY : Int) then
        let pv := pr.2.next (((TV_FLICKER_MAX_INTENSITY : ℚ) * (8/10)).floor)
          ((TV_FLICKER_MAX_INTENSITY : Int) + 1)
        ({ st with current_intensity := toU16 pv.1 }, pv.2)
      else if random_value < (TV_FLICKER_FLASH_PROBABILITY : Int) +
          (TV_FLICKER_DIM_PROBABILITY : Int) then
        let pv := pr.2.next (TV_FLICKER_MIN_INTENSITY : Int)
          (((TV_FLICKER_MIN_INTENSITY : ℚ) * (3/2)).floor)
        ({ st with current_intensity := toU16 pv.1 }, pv.2)
      else
        let pv := pr.2.next (-200) 201
        ({ st with current_intensity :=
            (constrain ((TV_FLICKER_BASE_INTENSITY : Int) + pv.1)
              (TV_FLICKER_MIN_INTENSITY : Int) (TV_FLICKER_MAX_INTENSITY : Int)).toNat }, pv.2)
    let pi2 := pick.2.next (TV_FLICKER_MIN_INTERVAL : Int) ((TV_FLICKER_MAX_INTERVAL : Int) + 1)
    let st := { pick.1 with next_event := uadd32 now pi2.1.toNat }
    let pm := pi2.2.next (-50) 51
    let final_intensity := (constrain ((st.current_intensity : Int) + pm.1)
      (TV_FLICKER_MIN_INTENSITY : Int) (TV_FLICKER_MAX_INTENSITY : Int)).toNat
    let led1 := led.setBrightness final_intensity
    ⟨led1, st, pushHw hw i j led1, pm.2⟩
  else ⟨led, st, hw, rng⟩

/-- Body of `ProgramManager::update_firebox_glow_program` (program.cpp:701).
    `current_effect` / `effect_start` are the local variables read once at the
    top; the expiry of a sub-effect writes `parameters["effect_type"] = 0` but
    the locals keep their old values for the rest of the tick, exactly as in
    the C++.  `int16_t intensity_diff` cannot overflow 16 bits when the stored
    brightness satisfies the `≤ 4095` invariant, so it is modelled on `Int`. -/
def fireboxGlowCore (lib : FloatLib) (i j now : Nat) (led : LED) (st : ProgramState)
    (hw : List HwEntry) (rng : Rng) : CoreOut :=
  let ini : ProgramState × Rng :=
    if st.start_time = 0 then
      let pr := rng.next (FIREBOX_MIN_INTERVAL : Int) ((FIREBOX_MAX_INTERVAL : Int) + 1)
      ({ st with start_time := u32 now, next_event := uadd32 now pr.1.toNat,
                 current_intensity := FIREBOX_BASE_INTENSITY,
                 parameters := (setParam (setParam st.parameters "effect_type" 0)
                   "effect_start_time" 0) }, pr.2)
    else (st, rng)
  let st := ini.1
  let rng := ini.2
  let current_effect := getParam st.parameters "effect_type"
  let effect_start := getParam st.parameters "effect_start_time"
  -- `uint16_t target_intensity = FIREBOX_BASE_INTENSITY;` then the switch on
  -- the active sub-effect (which may also mark the sub-effect finished)
  let act : Nat × ProgramState :=
    if 0 < current_effect then
      let effect_duration := usub32 now effect_start
      if current_effect = 1 then
        if effect_duration < FIREBOX_EMBER_DURATION then
          let progress : ℚ := (effect_duration : ℚ) / (FIREBOX_EMBER_DURATION : ℚ)
          if progress < 2/10 then
            (qToU16 ((FIREBOX_BASE_INTENSITY : ℚ) + 1800 * (progress / (2/10))), st)
          else
            (qToU16 ((FIREBOX_BASE_INTENSITY : ℚ) + 1800 * (1 - (progress - 2/10) / (8/10))), st)
        else (FIREBOX_BASE_INTENSITY, { st with parameters := setParam st.parameters "effect_type" 0 })
      else if current_effect = 2 then
        if effect_duration < FIREBOX_SURGE_DURATION then
          let progress : ℚ := (effect_duration : ℚ) / (FIREBOX_SURGE_DURATION : ℚ)
          let surge_intensity : ℚ :=
            if progress < 3/10 then progress / (3/10)
            else if progress < 7/10 then 1 + (2/10) * lib.sinq (progress * lib.piq * 8)
            else (1 - progress) / (3/10)
          (qToU16 ((FIREBOX_BASE_INTENSITY : ℚ) + 1500 * surge_intensity), st)
        else (FIREBOX_BASE_INTENSITY, { st with parameters := setParam st.parameters "effect_type" 0 })
      else if current_effect = 3 then
        if effect_duration < FIREBOX_WIND_DURATION then
          let progress : ℚ := (effect_duration : ℚ) / (FIREBOX_WIND_DURATION : ℚ)
          let wind_factor : ℚ :=
            (lib.sinq (progress * lib.piq * 3) * lib.sinq (progress * lib.piq * 7) *
              lib.sinq (progress * lib.piq * 11)) * (1 - progress)
          (qToU16 ((FIREBOX_BASE_INTENSITY : ℚ) + 800 * wind_factor), st)
        else (FIREBOX_BASE_INTENSITY, { st with parameters := setParam st.parameters "effect_type" 0 })
      else (FIREBOX_BASE_INTENSITY, st)
    else (FIREBOX_BASE_INTENSITY, st)
  let st := act.2
  -- check for new sub-effects
  let evt : ProgramState × Rng :=
    if current_effect = 0 ∧ st.next_event ≤ u32 now then
      let pr := rng.next 0 100
      let st1 :=
        if pr.1 < (FIREBOX_EMBER_POP_PROBABILITY : Int) then
          { st with parameters := (setParam (setParam st.parameters "effect_type" 1)
              "effect_start_time" (u32 now)) }
        else if pr.1 < (FIREBOX_EMBER_POP_PROBABILITY : Int) +
            (FIREBOX_FLAME_SURGE_PROBABILITY : Int) then
          { st with parameters := (setParam (setParam st.parameters "effect_type" 2)
              "effect_start_time" (u32 now)) }
        else if pr.1 < (FIREBOX_EMBER_POP_PROBABILITY : Int) +
            (FIREBOX_FLAME_SURGE_PROBABILITY : Int) + (FIREBOX_WIND_GUST_PROBABILITY : Int) then
          { st with parameters := (setParam (setParam st.parameters "effect_type" 3)
              "effect_start_time" (u32 now)) }
        else st
      let pn := pr.2.next (FIREBOX_MIN_INTERVAL : Int) ((FIREBOX_MAX_INTERVAL : Int) + 1)
      ({ st1 with next_event := uadd32 now pn.1.toNat }, pn.2)
    else (st, rng)
  let st := evt.1
  let rng := evt.2
  -- base crackle variations when no sub-effect was active this tick
  let bas : Nat × Rng :=
    if current_effect = 0 then
      let pb := rng.next (-400) 401
      ((constrain ((FIREBOX_BASE_INTENSITY : Int) + pb.1)
        (FIREBOX_MIN_INTENSITY : Int) (FIREBOX_MAX_INTENSITY : Int)).toNat, pb.2)
    else (act.1, rng)
  -- micro-variations, clamp, and the rate limiter
  let pm := bas.2.next (-100) 101
  let target_intensity := (constrain ((bas.1 : Int) + pm.1)
    (FIREBOX_MIN_INTENSITY : Int) (FIREBOX_MAX_INTENSITY : Int)).toNat
  let rng := pm.2
  let current_brightness := led.brightness
  let intensity_diff : Int := (target_intensity : Int) - (current_brightness : Int)
  let target2 : Nat :=
    if 300 < intensity_diff.natAbs ∧ current_effect ≠ 1 then
      if 0 < intensity_diff then toU16 ((current_brightness : Int) + 150)
      else toU16 ((current_brightness : Int) - 150)
    else target_intensity
  let led1 := led.setBrightness target2
  ⟨led1, st, pushHw hw i j led1, rng⟩

/-- Body of `ProgramManager::update_candle_flicker_program` (program.cpp:839).
    `3800 * 0.9` and `1800 * 1.2` round to exactly `3420.0` and `2160.0` as
    doubles; `intensity_diff / 3` is C++ integer division (toward zero),
    `Int.tdiv` here. -/
def candleFlickerCore (i j now : Nat) (led : LED) (st : ProgramState) (hw : List HwEntry)
    (rng : Rng) : CoreOut :=
  let ini : ProgramState × Rng :=
    if st.start_time = 0 then
      let pr := rng.next (CANDLE_MIN_INTERVAL : Int) ((CANDLE_MAX_INTERVAL : Int) + 1)
      ({ st with start_time := u32 now, next_event := uadd32 now pr.1.toNat,
                 current_intensity := CANDLE_BASE_INTENSITY }, pr.2)
    else (st, rng)
  let st := ini.1
  let rng := ini.2
  let evt : ProgramState × Rng :=
    if st.next_event ≤ u32 now then
      let pr := rng.next 0 100
      let pick : ProgramState × Rng :=
        if pr.1 < (CANDLE_STRONG_FLICKER_PROBABILITY : Int) then
          let pv := pr.2.next (((CANDLE_MAX_INTENSITY : ℚ) * (9/10)).floor)
            ((CANDLE_MAX_INTENSITY : Int) + 1)
          ({ st with current_intensity := toU16 pv.1 }, pv.2)
        else if pr.1 < (CANDLE_STRONG_FLICKER_PROBABILITY : Int) +
            (CANDLE_DIP_PROBABILITY : Int) then
          let pv := pr.2.next (CANDLE_MIN_INTENSITY : Int)
            (((CANDLE_MIN_INTENSITY : ℚ) * (12/10)).floor)
          ({ st with current_intensity := toU16 pv.1 }, pv.2)
        else
          let pv := pr.2.next (-150) 151
          ({ st with current_intensity :=
              (constrain ((CANDLE_BASE_INTENSITY : Int) + pv.1)
                (CANDLE_MIN_INTENSITY : Int) (CANDLE_MAX_INTENSITY : Int)).toNat }, pv.2)
      let pn := pick.2.next (CANDLE_MIN_INTERVAL : Int) ((CANDLE_MAX_INTERVAL : Int) + 1)
      ({ pick.1 with next_event := uadd32 now pn.1.toNat }, pn.2)
    else (st, rng)
  let st := evt.1
  let rng := evt.2
  let ps := rng.next (-30) 31
  let target_intensity := (constrain ((st.current_intensity : Int) + ps.1)
    (CANDLE_MIN_INTENSITY : Int) (CANDLE_MAX_INTENSITY : Int)).toNat
  let rng := ps.2
  let current_brightness := led.brightness
  let intensity_diff : Int := (target_intensity : Int) - (current_brightness : Int)
  let target2 : Nat :=
    if 200 < intensity_diff.natAbs then
      if 0 < intensity_diff then toU16 ((current_brightness : Int) + 80)
      else toU16 ((current_brightness : Int) - 80)
    else if 50 < intensity_diff.natAbs then
      toU16 ((current_brightness : Int) + Int.tdiv intensity_diff 3)
    else target_intensity
  let led1 := led.setBrightness target2
  ⟨led1, st, pushHw hw i j led1, rng⟩

/-- Body of `ProgramManager::update_french_crossing_program` (program.cpp:906).
    During the cool-down window the target is
    `FRENCH_CROSSING_WARMUP_MIN * exp(-2 * progress)` with
    `FRENCH_CROSSING_WARMUP_MIN = 0`. -/
def frenchCrossingCore (lib : FloatLib) (i j now : Nat) (led : LED) (st : ProgramState)
    (hw : List HwEntry) (rng : Rng) : CoreOut :=
  let st :=
    if st.start_time = 0 then
      { st with
        start_time := u32 now,
        parameters := (setParam (setParam st.parameters "phase_start_time" (u32 now))
          "current_phase" 0) }
    else st
  let cycle_time := usub32 now st.start_time %
    (FRENCH_CROSSING_ON_DURATION + FRENCH_CROSSING_OFF_DURATION)
  let phase_start0 := getParam st.parameters "phase_start_time"
  let current_phase0 := getParam st.parameters "current_phase"
  let should_be_on : Bool := cycle_time < FRENCH_CROSSING_ON_DURATION
  let tr : ProgramState × Nat × Nat :=
    if (should_be_on = true ∧ current_phase0 = 0) ∨ (should_be_on = false ∧ current_phase0 = 1) then
      ({ st with parameters := (setParam (setParam st.parameters "phase_start_time" (u32 now))
          "current_phase" (if should_be_on then 1 else 0)) },
       u32 now, if should_be_on then 1 else 0)
    else (st, phase_start0, current_phase0)
  let st := tr.1
  let phase_start := tr.2.1
  let current_phase := tr.2.2
  let phase_time := usub32 now phase_start
  let res : Nat × Rng :=
    if current_phase = 1 then
      if phase_time < FRENCH_CROSSING_WARMUP_DURATION then
        let warmup_progress : ℚ := (phase_time : ℚ) / (FRENCH_CROSSING_WARMUP_DURATION : ℚ)
        let exponential_progress : ℚ := 1 - lib.expq (-4 * warmup_progress)
        (qToU16 ((FRENCH_CROSSING_WARMUP_MIN : ℚ) +
          ((FRENCH_CROSSING_MAX_INTENSITY : ℚ) - (FRENCH_CROSSING_WARMUP_MIN : ℚ)) *
            exponential_progress), rng)
      else
        let pv := rng.next (-25) 26
        ((constrain ((FRENCH_CROSSING_MAX_INTENSITY : Int) + pv.1)
          ((FRENCH_CROSSING_MAX_INTENSITY : Int) - 50) (FRENCH_CROSSING_MAX_INTENSITY : Int)).toNat,
         pv.2)
    else
      if phase_time < FRENCH_CROSSING_COOLDOWN_DURATION then
        let cooldown_progress : ℚ := (phase_time : ℚ) / (FRENCH_CROSSING_COOLDOWN_DURATION : ℚ)
        let exponential_decay : ℚ := lib.expq (-2 * cooldown_progress)
        (qToU16 ((FRENCH_CROSSING_WARMUP_MIN : ℚ) * exponential_decay), rng)
      else (0, rng)
  let led1 := led.setBrightness res.1
  ⟨led1, st, pushHw hw i j led1, res.2⟩

/-! ## The `update_*_program` entry points and the dispatcher -/

def update_welding_program (s : Sys) (i j now : Nat) : Sys :=
  runEffect 10 (weldingCore i j now) s i j now

def update_heartbeat_program (s : Sys) (i j now : Nat) : Sys :=
  runEffect 20 (heartbeatCore i j now) s i j now

def update_breathing_program (lib : FloatLib) (s : Sys) (i j now : Nat) : Sys :=
  runEffect 20 (breathingCore lib i j now) s i j now

def update_simple_blink_program (s : Sys) (i j now : Nat) : Sys :=
  runEffect 50 (simpleBlinkCore i j now) s i j now

def update_tv_flicker_program (s : Sys) (i j now : Nat) : Sys :=
  runEffect 20 (tvFlickerCore i j now) s i j now

def update_firebox_glow_program (lib : FloatLib) (s : Sys) (i j now : Nat) : Sys :=
  runEffect 20 (fireboxGlowCore lib i j now) s i j now

def update_candle_flicker_program (s : Sys) (i j now : Nat) : Sys :=
  runEffect 25 (candleFlickerCore i j now) s i j now

def update_french_crossing_program (lib : FloatLib) (s : Sys) (i j now : Nat) : Sys :=
  runEffect 10 (frenchCrossingCore lib i j now) s i j now

/-- The per-channel guard and dispatch of `ProgramManager::update`
    (program.cpp:248-281): run the matching effect only when the LED exists,
    is enabled, has a program assigned and a runtime state allocated. -/
def updateLed (lib : FloatLib) (s : Sys) (i j now : Nat) : Sys :=
  match s.mm.getLED i j with
  | none => s
  | some led_info =>
    if led_info.enabled = true ∧ led_info.program_type ≠ PROGRAM_NONE ∧
        led_info.program_state ≠ none then
      match led_info.program_type with
      | PROGRAM_WELDING => update_welding_program s i j now
      | PROGRAM_HEARTBEAT => update_heartbeat_program s i j now
      | PROGRAM_BREATHING => update_breathing_program lib s i j now
      | PROGRAM_SIMPLE_BLINK => update_simple_blink_program s i j now
      | PROGRAM_TV_FLICKER => update_tv_flicker_program s i j now
      | PROGRAM_FIREBOX_GLOW => update_firebox_glow_program lib s i j now
      | PROGRAM_CANDLE_FLICKER => update_candle_flicker_program s i j now
      | PROGRAM_FRENCH_CROSSING => update_french_crossing_program lib s i j now
      | PROGRAM_NONE => s
    else s

/-- `ProgramManager::update` (program.cpp:240): bank-major, channel-minor
    iteration over all channels.  The loop bounds are the module and LED
    counts; no effect ever changes them, so they are read from the entry
    state. -/
def ProgramManager.update (lib : FloatLib) (s : Sys) (current_millis : Nat) : Sys :=
  (List.range s.mm.getModuleCount).foldl
    (fun acc1 i =>
      match s.mm.getModule i with
      | none => acc1
      | some m =>
        (List.range m.getLedCount).foldl (fun acc2 j => updateLed lib acc2 i j current_millis) acc1)
    s

/-! ## Assignment lifecycle (program.cpp:286-365, 985-1045) -/

/-- `ProgramManager::initialize_default_state` (program.cpp:1032): `millis()`
    at the moment of the call is passed in as `now`. -/
def init_default_state (now : Nat) (state : ProgramState) : ProgramState :=
  { state with last_update := 0, start_time := u32 now, active := true, current_intensity := 0 }

/-- `ProgramManager::initialize_welding_state` (program.cpp:1039): the first
    flash is scheduled `random(1000, 3000)` ms after the call. -/
def init_welding_state (now : Nat) (state : ProgramState) (rng : Rng) : ProgramState × Rng :=
  let pr := rng.next 1000 3000
  ({ state with last_update := 0, next_event := uadd32 now pr.1.toNat, active := false,
                start_time := 0, current_intensity := 0 }, pr.2)

/-- `ProgramManager::initialize_led_state` (program.cpp:985): dispatch to the
    kind-specific state initializer.  When the LED's state pointer is null the
    C++ initializers would dereference it; that path is unreachable from
    `assign_program`, and the model leaves the manager unchanged there. -/
def init_led_state (mm : ModuleManager) (rng : Rng) (module_id led_id now : Nat) :
    Bool × ModuleManager × Rng :=
  match mm.getModule module_id with
  | none => (false, mm, rng)
  | some m =>
    if led_id ≥ m.getLedCount then (false, mm, rng)
    else
      match mm.getLED module_id led_id with
      | none => (false, mm, rng)
      | some led_info =>
        match led_info.program_state with
        | none => (true, mm, rng)
        | some st =>
          match led_info.program_type with
          | PROGRAM_WELDING =>
            let p := init_welding_state now st rng
            (true, mm.setLED module_id led_id { led_info with program_state := some p.1 }, p.2)
          | PROGRAM_NONE => (true, mm, rng)
          | _ =>
            (true, mm.setLED module_id led_id
              { led_info with program_state := some (init_default_state now st) }, rng)

/-- `ProgramManager::unassign_program` (program.cpp:321): validity checks,
    delete the owned state and null the pointer, then
    `setProgram(PROGRAM_NONE, getProgramState())`. -/
def unassign_program (mm : ModuleManager) (module_id led_id : Nat) : Bool × ModuleManager :=
  match mm.getModule module_id with
  | none => (false, mm)
  | some m =>
    if led_id ≥ m.getLedCount then (false, mm)
    else
      match mm.getLED module_id led_id with
      | none => (false, mm)
      | some led_info =>
        let led1 := if led_info.program_state ≠ none
                    then led_info.setProgram led_info.program_type none
                    else led_info
        let led2 := led1.setProgram PROGRAM_NONE led1.program_state
        (true, mm.setLED module_id led_id led2)

/-- `ProgramManager::assign_program` (program.cpp:286): validity checks;
    `PROGRAM_NONE` delegates to `unassign_program`; otherwise the old state is
    deleted, `setProgram(type, new ProgramState())` runs, and the kind-specific
    initializer fills the fresh state.  `now` is `millis()` at the call. -/
def assign_program (mm : ModuleManager) (rng : Rng) (module_id led_id : Nat)
    (program_type : ProgramType) (now : Nat) : Bool × ModuleManager × Rng :=
  match mm.getModule module_id with
  | none => (false, mm, rng)
  | some m =>
    if led_id ≥ m.getLedCount then (false, mm, rng)
    else
      match mm.getLED module_id led_id with
      | none => (false, mm, rng)
      | some led_info =>
        if program_type = PROGRAM_NONE then
          let p := unassign_program mm module_id led_id
          (p.1, p.2, rng)
        else
          let led1 := led_info.setProgram program_type (some {})
          let mm1 := mm.setLED module_id led_id led1
          let p := init_led_state mm1 rng module_id led_id now
          (true, p.2.1, p.2.2)

/-- `ProgramManager::is_program_assigned` (program.cpp:349). -/
def is_program_assigned (mm : ModuleManager) (module_id led_id : Nat) : Bool :=
  if module_id ≥ mm.getModuleCount then false
  else
    match mm.getLED module_id led_id with
    | some led => decide (led.program_type ≠ PROGRAM_NONE)
    | none => false

/-- `ProgramManager::get_program_type` (program.cpp:358). -/
def get_program_type (mm : ModuleManager) (module_id led_id : Nat) : ProgramType :=
  if module_id ≥ mm.getModuleCount then PROGRAM_NONE
  else
    match mm.getLED module_id led_id with
    | some led => led.program_type
    | none => PROGRAM_NONE

/-! ## Concrete fixtures used to instantiate theorems -/

/-- A trivial math-library oracle for concrete evaluations. -/
def lib0 : FloatLib := ⟨fun _ => 0, fun _ => 0, fun _ => 0, 157/50⟩

/-- An all-zero random stream for concrete evaluations. -/
def rng0 : Rng := ⟨fun _ => 0, 0⟩

/-- A disabled channel that still owns heartbeat runtime state. -/
def ledC9 : LED :=
  { name := "", brightness := 100, enabled := false, program_type := PROGRAM_HEARTBEAT,
    program_state := some { start_time := 5, next_event := 42 } }

/-- One bank with the single disabled channel `ledC9`. -/
def sysC9 : Sys := ⟨⟨[⟨[ledC9]⟩]⟩, [], rng0⟩

/-- The spec's Channel invariant: `program_kind == None ⟺ runtime_state == absent`. -/
def ledInv (l : LED) : Prop := l.program_type = PROGRAM_NONE ↔ l.program_state = none

/-- The Channel invariant, for every channel of the registry. -/
def mmInv (mm : ModuleManager) : Prop := ∀ i j l, mm.getLED i j = some l → ledInv l

/-- An enabled channel carrying a welding program and its runtime state. -/
def ledC2 : LED := { enabled := true, program_type := PROGRAM_WELDING, program_state := some {} }

/-- A registry with a single bank holding a single channel. -/
def oneChannelSys (l : LED) (hw : List HwEntry) (rng : Rng) : Sys := ⟨⟨[⟨[l]⟩]⟩, hw, rng⟩

/-- The stored duty value of channel `(0, 0)` (0 when absent). -/
def duty00 (s : Sys) : Nat :=
  match s.mm.getLED 0 0 with
  | some l => l.brightness
  | none => 0

/-- An enabled channel running Heartbeat with runtime state `st`. -/
def heartbeatLED (st : ProgramState) : LED :=
  { enabled := true, program_type := PROGRAM_HEARTBEAT, program_state := some st }

/-- An enabled channel running SimpleBlink with runtime state `st`. -/
def blinkLED (st : ProgramState) : LED :=
  { enabled := true, program_type := PROGRAM_SIMPLE_BLINK, program_state := some st }

/-- The fresh runtime state produced by assigning a cycle-based program at
    time `T`: `initialize_default_state` over a value-initialized
    `new ProgramState()`. -/
def blinkStateOf (T : Nat) : ProgramState :=
  { last_update := 0, next_event := 0, active := true, start_time := u32 T,
    current_intensity := 0, parameters := [] }

/-- C3 scenario, step 1: assign SimpleBlink at 1000 ms on a fresh channel. -/
def c3mmA : ModuleManager :=
  (assign_program ⟨[⟨[{ enabled := true }]⟩]⟩ rng0 0 0 PROGRAM_SIMPLE_BLINK 1000).2.1

/-- C3 scenario, step 2: update 1250 ms after the first anchor. -/
def c3sysB : Sys := ProgramManager.update lib0 ⟨c3mmA, [], rng0⟩ 2250

/-- C3 scenario, step 3: re-assign SimpleBlink at 5000 ms. -/
def c3mmC : ModuleManager := (assign_program c3sysB.mm rng0 0 0 PROGRAM_SIMPLE_BLINK 5000).2.1

/-- C3 scenario, step 4: update 1250 ms after the new anchor. -/
def c3sysD : Sys := ProgramManager.update lib0 ⟨c3mmC, [], rng0⟩ 6250

/-- An enabled channel running FrenchCrossing with runtime state `st`. -/
def crossingLED (st : ProgramState) : LED :=
  { enabled := true, program_type := PROGRAM_FRENCH_CROSSING, program_state := some st }

/-- Definition following the spec's words for C4: during the OFF half's
    cool-down window the duty is the exponential cool-down `e^(−2·progress)`
    scaled from the intensity at phase start. -/
def frenchCrossingCooldownSpec (lib : FloatLib) (intensity_at_phase_start phase_time : Nat) : Nat :=
  qToU16 ((intensity_at_phase_start : ℚ) *
    lib.expq (-2 * ((phase_time : ℚ) / (FRENCH_CROSSING_COOLDOWN_DURATION : ℚ))))

/-- A library oracle whose `exp` is the constant 1 (the value of the real
    `exp` at 0, where the C4 counterexample evaluates it). -/
def libExp1 : FloatLib := ⟨fun _ => 0, fun _ => 0, fun _ => 1, 157/50⟩

/-- A crossing channel at full duty, 500 ms into its cycle, still marked in
    the ON phase: the next tick switches it to the OFF phase. -/
def c4st : ProgramState :=
  { last_update := 0, start_time := 1,
    parameters := [("phase_start_time", 1), ("current_phase", 1)] }

/-- An enabled channel running Welding with runtime state `st`. -/
def weldingLED (st : ProgramState) : LED :=
  { enabled := true, program_type := PROGRAM_WELDING, program_state := some st }

/-- Welding state with no flash in progress and the next flash far away:
    an idle (but non-throttled) welding tick. -/
def c5st : ProgramState :=
  { last_update := 0, next_event := 1000000, active := false, start_time := 0 }

/-- Welding state that triggers a flash on the next tick. -/
def c6st : ProgramState :=
  { last_update := 0, next_event := 0, active := false, start_time := 0 }

/-- Random stream for C6: first draw 2990 (peak intensity
    `10 + 2990 mod 2991 = 3000`), all further draws 0 (the low end of each
    range — in particular the micro-variation draw `random(-200, 201)`
    returns `-200`). -/
def rngC6 : Rng := ⟨fun n => if n = 0 then 2990 else 0, 0⟩

/-- An effect entry point of signature `(s, i, j, now) → s'`: on every valid
    non-throttled tick it stores `last_update = now` in the channel's runtime
    state (the epilogue shared by all eight `update_*_program`). -/
def setsLastUpdate (rate : Nat) (eff : Sys → Nat → Nat → Nat → Sys) : Prop :=
  ∀ (s : Sys) (i j now : Nat) (led : LED) (st : ProgramState),
    s.mm.getLED i j = some led → led.program_state = some st →
    ¬ usub32 now st.last_update < rate →
    ∃ led' st', (eff s i j now).mm.getLED i j = some led' ∧
      led'.program_state = some st' ∧ st'.last_update = u32 now

/-- An effect entry point that, on every valid non-throttled tick, writes a
    duty value into the channel and pushes exactly that stored duty to the
    hardware-apply operation. -/
def writesAndApplies (rate : Nat) (eff : Sys → Nat → Nat → Nat → Sys) : Prop :=
  ∀ (s : Sys) (i j now : Nat) (led : LED) (st : ProgramState),
    s.mm.getLED i j = some led → led.program_state = some st →
    ¬ usub32 now st.last_update < rate →
    ∃ led', (eff s i j now).mm.getLED i j = some led' ∧
      (eff s i j now).hw = s.hw ++ [(i, j, led'.brightness)]

/-- The LED written by an effect body: either untouched or a `setBrightness`
    result (same identity fields, clamped brightness). -/
def ledLike (led out : LED) : Prop :=
  out = led ∨ (out.program_type = led.program_type ∧ out.program_state = led.program_state ∧
    out.enabled = led.enabled ∧ out.brightness ≤ 4095)

/-! ## Basic lemmas about the embedding -/

/-- Every draw of `random(lo, hi)` lies in `[lo, hi)`. -/
theorem Rng.next_range (r : Rng) {lo hi : Int} (h : lo < hi) :
    lo ≤ (r.next lo hi).1 ∧ (r.next lo hi).1 < hi := by
  unfold Rng.next
  have h1 := Int.emod_nonneg (r.stream r.idx) (by omega : hi - lo ≠ 0)
  have h2 := Int.emod_lt_of_pos (r.stream r.idx) (by omega : (0:Int) < hi - lo)
  exact ⟨by omega, by omega⟩


theorem usub32_add (a k : Nat) (hk : k < U32) : usub32 (a + k) a = k := by
  unfold usub32 u32 U32 at *
  omega

theorem LED.setBrightness_le (l : LED) (b : Nat) : (l.setBrightness b).brightness ≤ 4095 := by
  unfold LED.setBrightness LED.MAX_BRIGHTNESS
  split
  · simp
  · simp
    omega

theorem LED.setBrightness_fields (l : LED) (b : Nat) :
    (l.setBrightness b).program_type = l.program_type ∧
    (l.setBrightness b).program_state = l.program_state ∧
    (l.setBrightness b).enabled = l.enabled ∧
    (l.setBrightness b).name = l.name := by
  unfold LED.setBrightness
  split <;> exact ⟨rfl, rfl, rfl, rfl⟩

theorem ledLike_refl (led : LED) : ledLike led led := Or.inl rfl

theorem ledLike_setBrightness {led l' : LED} (h : ledLike led l') (b : Nat) :
    ledLike led (l'.setBrightness b) := by
  rcases h with h | ⟨h1, h2, h3, _⟩
  · subst h
    exact Or.inr ⟨(LED.setBrightness_fields l' b).1, (LED.setBrightness_fields l' b).2.1,
      (LED.setBrightness_fields l' b).2.2.1, LED.setBrightness_le l' b⟩
  · refine Or.inr ⟨?_, ?_, ?_, LED.setBrightness_le l' b⟩
    · rw [(LED.setBrightness_fields l' b).1, h1]
    · rw [(LED.setBrightness_fields l' b).2.1, h2]
    · rw [(LED.setBrightness_fields l' b).2.2.1, h3]

theorem ledLike_brightness_le {led out : LED} (h : ledLike led out)
    (hled : led.brightness ≤ 4095) : out.brightness ≤ 4095 := by
  rcases h with h | ⟨_, _, _, h4⟩
  · subst h; exact hled
  · exact h4

theorem mem_pushHw {hw : List HwEntry} {i j : Nat} {led : LED} {e : HwEntry}
    (he : e ∈ pushHw hw i j led) : e ∈ hw ∨ e.2.2 = led.brightness := by
  unfold pushHw at he
  rcases List.mem_append.mp he with h | h
  · exact Or.inl h
  · simp only [List.mem_singleton] at h
    subst h
    exact Or.inr rfl

theorem getParam_cons (p : String × Nat) (rest : List (String × Nat)) (k : String) :
    getParam (p :: rest) k = if p.1 = k then p.2 else getParam rest k := by
  by_cases h : p.1 = k
  · simp [getParam, List.find?, h]
  · simp [getParam, List.find?, h]

theorem getParam_setParam_self (ps : List (String × Nat)) (k : String) (v : Nat) :
    getParam (setParam ps k v) k = v := by
  induction ps with
  | nil => simp [setParam, getParam_cons]
  | cons p rest ih =>
    by_cases h : p.1 = k
    · simp [setParam, h, getParam_cons]
    · simp [setParam, h, getParam_cons, ih]

theorem getParam_setParam_ne (ps : List (String × Nat)) (k k' : String) (v : Nat)
    (hne : k ≠ k') : getParam (setParam ps k v) k' = getParam ps k' := by
  induction ps with
  | nil => simp [setParam, getParam_cons, hne]
  | cons p rest ih =>
    by_cases h : p.1 = k
    · have hp : ¬ p.1 = k' := by rw [h]; exact hne
      simp only [setParam, if_pos h, getParam_cons]
      rw [if_neg hne, if_neg hp]
    · simp only [setParam, if_neg h, getParam_cons, ih]

/-- `List.get?` after `List.set` at the written index. -/
theorem get?_set_self {α : Type} : ∀ (l : List α) (i : Nat) (a : α), i < l.length →
    (l.set i a).get? i = some a
  | [], i, _, h => by simp at h
  | _ :: _, 0, _, _ => rfl
  | x :: xs, i + 1, a, h => by
    simpa using get?_set_self xs i a (by simpa using h)

/-- `List.get?` after `List.set` at another index. -/
theorem get?_set_ne {α : Type} : ∀ (l : List α) (i i' : Nat) (a : α), i ≠ i' →
    (l.set i a).get? i' = l.get? i'
  | [], _, _, _, _ => by simp
  | x :: xs, 0, 0, a, h => absurd rfl h
  | x :: xs, 0, i' + 1, a, _ => rfl
  | x :: xs, i + 1, 0, a, _ => rfl
  | x :: xs, i + 1, i' + 1, a, h => by
    simpa using get?_set_ne xs i i' a (by omega)

theorem get?_lt_length {α : Type} {l : List α} {i : Nat} {a : α} (h : l.get? i = some a) :
    i < l.length :=
  List.get?_eq_some.mp h |>.1

theorem getLED_setLED_self {mm : ModuleManager} {i j : Nat} {led : LED} (l : LED)
    (h : mm.getLED i j = some led) : (mm.setLED i j l).getLED i j = some l := by
  unfold ModuleManager.getLED ModuleManager.getModule at h ⊢
  unfold ModuleManager.setLED
  rcases hm : mm.modules.get? i with _ | m
  · rw [hm] at h; exact absurd h (by simp)
  · rw [hm] at h
    unfold PCA9685Module.getLED at h ⊢
    have hi : i < mm.modules.length := get?_lt_length hm
    have hj : j < m.leds.length := get?_lt_length h
    simp only [hm]
    rw [get?_set_self _ _ _ hi]
    simpa using get?_set_self m.leds j l hj

theorem getLED_setLED_ne {mm : ModuleManager} {i j : Nat} (l : LED) {i' j' : Nat}
    (hne : ¬(i = i' ∧ j = j')) : (mm.setLED i j l).getLED i' j' = mm.getLED i' j' := by
  unfold ModuleManager.getLED ModuleManager.getModule ModuleManager.setLED
  by_cases hi : i = i'
  · subst hi
    have hj : j ≠ j' := fun hj => hne ⟨rfl, hj⟩
    rcases hm : mm.modules.get? i with _ | m
    · have : i ≥ mm.modules.length := by
        by_contra hlt
        push_neg at hlt
        rcases List.get?_eq_get hlt with h
        rw [hm] at h
        exact absurd h (by simp)
      rw [List.set_eq_of_length_le (by omega), hm]
    · have hi' : i < mm.modules.length := get?_lt_length hm
      simp only [hm]
      rw [get?_set_self _ _ _ hi']
      unfold PCA9685Module.getLED
      simpa using get?_set_ne m.leds j j' l hj
  · rw [get?_set_ne _ _ _ _ hi]

theorem getLED_setLED_none {mm : ModuleManager} {i j : Nat} (l : LED)
    (h : mm.getLED i j = none) : (mm.setLED i j l).getLED i j = none := by
  unfold ModuleManager.getLED ModuleManager.getModule at h ⊢
  unfold ModuleManager.setLED
  rcases hm : mm.modules.get? i with _ | m
  · have : i ≥ mm.modules.length := by
      by_contra hlt
      push_neg at hlt
      rcases List.get?_eq_get hlt with hg
      rw [hm] at hg
      exact absurd hg (by simp)
    rw [List.set_eq_of_length_le (by omega), hm]
  · simp only [hm] at h
    unfold PCA9685Module.getLED at h ⊢
    have hi : i < mm.modules.length := get?_lt_length hm
    simp only [hm]
    rw [get?_set_self _ _ _ hi]
    have hj : j ≥ m.leds.length := by
      by_contra hlt
      push_neg at hlt
      rcases List.get?_eq_get hlt with hg
      rw [hg] at h
      exact absurd h (by simp)
    simp only []
    rw [List.set_eq_of_length_le (by omega)]
    exact h

/-- Any LED visible after `setLED` is the written LED or one already present. -/
theorem getLED_setLED_cases {mm : ModuleManager} {i j : Nat} {l : LED} {i' j' : Nat} {led' : LED}
    (h : (mm.setLED i j l).getLED i' j' = some led') :
    led' = l ∨ mm.getLED i' j' = some led' := by
  by_cases heq : i = i' ∧ j = j'
  · rcases heq with ⟨hi, hj⟩
    subst hi; subst hj
    rcases hg : mm.getLED i j with _ | led0
    · rw [getLED_setLED_none l hg] at h
      exact absurd h (by simp)
    · rw [getLED_setLED_self l hg] at h
      exact Or.inl (Option.some.inj h).symm
  · rw [getLED_setLED_ne l heq] at h
    exact Or.inr h

/-! ## Lemmas about the shared effect skeleton and the dispatcher -/

/-- `runEffect` on a valid, non-throttled tick: the core runs and the LED is
    written back with `last_update = current_millis`. -/
theorem runEffect_run {rate : Nat} {core : LED → ProgramState → List HwEntry → Rng → CoreOut}
    {s : Sys} {i j now : Nat} {led : LED} {st : ProgramState}
    (hled : s.mm.getLED i j = some led) (hst : led.program_state = some st)
    (hth : ¬ usub32 now st.last_update < rate) :
    (runEffect rate core s i j now).mm =
        s.mm.setLED i j (writeBackLED (core led st s.hw s.rng) now) ∧
    (runEffect rate core s i j now).hw = (core led st s.hw s.rng).hw ∧
    (runEffect rate core s i j now).rng = (core led st s.hw s.rng).rng := by
  unfold runEffect
  rw [hled]
  dsimp only
  rw [hst]
  dsimp only
  rw [if_neg hth]
  exact ⟨rfl, rfl, rfl⟩

/-- `runEffect` is the identity on a throttled tick. -/
theorem runEffect_throttled {rate : Nat} {core} {s : Sys} {i j now : Nat} {led : LED}
    {st : ProgramState} (hled : s.mm.getLED i j = some led) (hst : led.program_state = some st)
    (hth : usub32 now st.last_update < rate) :
    runEffect rate core s i j now = s := by
  unfold runEffect
  rw [hled]
  dsimp only
  rw [hst]
  dsimp only
  rw [if_pos hth]

/-- The manager after `runEffect` is unchanged or a single-LED write at `(i, j)`. -/
theorem runEffect_mm_cases (rate : Nat) (core : LED → ProgramState → List HwEntry → Rng → CoreOut)
    (s : Sys) (i j now : Nat) :
    (runEffect rate core s i j now).mm = s.mm ∨
    ∃ l, (runEffect rate core s i j now).mm = s.mm.setLED i j l := by
  unfold runEffect
  split
  · exact Or.inl rfl
  · split
    · exact Or.inl rfl
    · split
      · exact Or.inl rfl
      · exact Or.inr ⟨_, rfl⟩

theorem runEffect_getLED_ne {rate : Nat} {core} {s : Sys} {i j now i' j' : Nat}
    (hne : ¬(i = i' ∧ j = j')) :
    (runEffect rate core s i j now).mm.getLED i' j' = s.mm.getLED i' j' := by
  rcases runEffect_mm_cases rate core s i j now with h | ⟨l, h⟩
  · rw [h]
  · rw [h, getLED_setLED_ne l hne]

/-- Preservation of a predicate along `List.foldl`. -/
theorem foldl_preserve {α β : Type} (P : α → Prop) {f : α → β → α} {l : List β} {s : α}
    (hf : ∀ a b, P a → P (f a b)) (hs : P s) : P (l.foldl f s) := by
  induction l generalizing s with
  | nil => exact hs
  | cons x xs ih => exact ih (hf s x hs)

/-- The dispatcher is the identity on a disabled, unassigned or state-less LED. -/
theorem updateLed_skip {lib : FloatLib} {s : Sys} {i j now : Nat} {led : LED}
    (hled : s.mm.getLED i j = some led)
    (hskip : led.enabled = false ∨ led.program_type = PROGRAM_NONE ∨ led.program_state = none) :
    updateLed lib s i j now = s := by
  unfold updateLed
  split
  · rfl
  next led_info heq =>
    have he : led_info = led := by
      rw [heq] at hled
      exact Option.some.inj hled
    subst he
    have hg : ¬(led_info.enabled = true ∧ led_info.program_type ≠ PROGRAM_NONE ∧
        led_info.program_state ≠ none) := by
      rcases hskip with h | h | h <;> simp [h]
    rw [if_neg hg]

/-- The manager after a dispatcher step is unchanged or a single-LED write. -/
theorem updateLed_mm_cases (lib : FloatLib) (s : Sys) (i j now : Nat) :
    (updateLed lib s i j now).mm = s.mm ∨
    ∃ l, (updateLed lib s i j now).mm = s.mm.setLED i j l := by
  unfold updateLed
  split
  · exact Or.inl rfl
  · split
    · split <;>
        simp only [update_welding_program, update_heartbeat_program, update_breathing_program,
          update_simple_blink_program, update_tv_flicker_program, update_firebox_glow_program,
          update_candle_flicker_program, update_french_crossing_program] <;>
        first
          | exact Or.inl trivial
          | exact Or.inl rfl
          | exact runEffect_mm_cases _ _ _ _ _ _
    · exact Or.inl rfl

theorem updateLed_getLED_ne {lib : FloatLib} {s : Sys} {i j now i' j' : Nat}
    (hne : ¬(i = i' ∧ j = j')) :
    (updateLed lib s i j now).mm.getLED i' j' = s.mm.getLED i' j' := by
  rcases updateLed_mm_cases lib s i j now with h | ⟨l, h⟩
  · rw [h]
  · rw [h, getLED_setLED_ne l hne]

/-- **C9**: during `update(now)`, every channel that is disabled, has no
    assigned program, or has no runtime state is skipped entirely: the whole
    channel — duty value and runtime state, including `start_time` and
    `next_event` — is exactly as before, so re-enabling a disabled channel
    resumes the effect from its preserved phase rather than restarting. -/
theorem C9_update_skips_inactive_channels (lib : FloatLib) (s : Sys) (now i0 j0 : Nat) (led : LED)
    (h : s.mm.getLED i0 j0 = some led)
    (hskip : led.enabled = false ∨ led.program_type = PROGRAM_NONE ∨ led.program_state = none) :
    (ProgramManager.update lib s now).mm.getLED i0 j0 = some led := by
  unfold ProgramManager.update
  refine foldl_preserve (fun a : Sys => a.mm.getLED i0 j0 = some led) ?_ h
  intro a i ha
  split
  · exact ha
  · refine foldl_preserve (fun a : Sys => a.mm.getLED i0 j0 = some led) ?_ ha
    intro a2 jj ha2
    by_cases he : i = i0 ∧ jj = j0
    · rcases he with ⟨h1, h2⟩
      subst h1
      subst h2
      rw [updateLed_skip ha2 hskip]
      exact ha2
    · rw [updateLed_getLED_ne he]
      exact ha2

/-- Witness for C9: a concrete disabled heartbeat channel is untouched by a
    full `update` tick. -/
theorem C9_witness :
    (ProgramManager.update lib0 sysC9 1000).mm.getLED 0 0 = some ledC9 :=
  C9_update_skips_inactive_channels lib0 sysC9 1000 0 0 ledC9 rfl (Or.inl rfl)

/-- **C7**: for every invalid `(bank, channel)` location — the bank index out
    of range, or the channel index out of range for that bank — both `assign`
    and `unassign` fail (return `false`) and the whole registry, hence the
    kind, runtime state, duty and enabled flag of every channel, is unchanged
    (and the random source is not advanced). -/
theorem C7_invalid_location_rejected (mm : ModuleManager) (rng : Rng) (b c : Nat)
    (k : ProgramType) (now : Nat)
    (hinv : ∀ m, mm.getModule b = some m → m.getLedCount ≤ c) :
    assign_program mm rng b c k now = (false, mm, rng) ∧
    unassign_program mm b c = (false, mm) := by
  constructor
  · unfold assign_program
    split
    · rfl
    next m hm => rw [if_pos (hinv m hm)]
  · unfold unassign_program
    split
    · rfl
    next m hm => rw [if_pos (hinv m hm)]

/-- Witness for C7: channel index 5 on a one-channel bank. -/
theorem C7_witness :
    assign_program sysC9.mm rng0 0 5 PROGRAM_WELDING 7 = (false, sysC9.mm, rng0) ∧
    unassign_program sysC9.mm 0 5 = (false, sysC9.mm) :=
  C7_invalid_location_rejected sysC9.mm rng0 0 5 PROGRAM_WELDING 7
    (fun m hm => by
      have h : m = ⟨[ledC9]⟩ := (Option.some.inj hm).symm
      subst h
      decide)

/-- **C8**: `assign(b, c, None)` returns the same result and produces the same
    post-state as `unassign(b, c)` (it also leaves the random source alone);
    this holds for every location, valid or not. -/
theorem C8_assign_none_equals_unassign (mm : ModuleManager) (rng : Rng) (b c now : Nat) :
    assign_program mm rng b c PROGRAM_NONE now =
      ((unassign_program mm b c).1, (unassign_program mm b c).2, rng) := by
  unfold assign_program unassign_program
  split
  · rfl
  next m hm =>
    split
    next hc => rfl
    next hc =>
      split
      · rfl
      next led hled =>
        rw [if_pos rfl]
        dsimp only
        rw [if_neg hc]

theorem mem_pushHw_le {hw : List HwEntry} {i j : Nat} {led0 : LED} {b : Nat} {e : HwEntry}
    (he : e ∈ pushHw hw i j (led0.setBrightness b)) : e ∈ hw ∨ e.2.2 ≤ 4095 := by
  rcases mem_pushHw he with h | h
  · exact Or.inl h
  · right
    rw [h]
    exact LED.setBrightness_le led0 b

/-- The welding body only writes clamped duty values. -/
theorem weldingCore_ledLike (i j now : Nat) (led : LED) (st : ProgramState)
    (hw : List HwEntry) (rng : Rng) :
    ledLike led (weldingCore i j now led st hw rng).led ∧
    ∀ e ∈ (weldingCore i j now led st hw rng).hw, e ∈ hw ∨ e.2.2 ≤ 4095 := by
  unfold weldingCore
  dsimp only
  split_ifs <;>
    dsimp only <;>
    constructor <;>
    first
      | exact ledLike_refl led
      | exact ledLike_setBrightness (ledLike_refl led) _
      | exact ledLike_setBrightness (ledLike_setBrightness (ledLike_refl led) _) _
      | (intro e he; exact Or.inl he)
      | (intro e he; exact mem_pushHw_le he)
      | (intro e he
         rcases mem_pushHw_le he with h | h
         · exact mem_pushHw_le h
         · exact Or.inr h)

/-- The heartbeat body only writes clamped duty values. -/
theorem heartbeatCore_ledLike (i j now : Nat) (led : LED) (st : ProgramState)
    (hw : List HwEntry) (rng : Rng) :
    ledLike led (heartbeatCore i j now led st hw rng).led ∧
    ∀ e ∈ (heartbeatCore i j now led st hw rng).hw, e ∈ hw ∨ e.2.2 ≤ 4095 := by
  unfold heartbeatCore
  dsimp only
  exact ⟨ledLike_setBrightness (ledLike_refl led) _, fun e he => mem_pushHw_le he⟩

/-- The breathing body only writes clamped duty values. -/
theorem breathingCore_ledLike (lib : FloatLib) (i j now : Nat) (led : LED) (st : ProgramState)
    (hw : List HwEntry) (rng : Rng) :
    ledLike led (breathingCore lib i j now led st hw rng).led ∧
    ∀ e ∈ (breathingCore lib i j now led st hw rng).hw, e ∈ hw ∨ e.2.2 ≤ 4095 := by
  unfold breathingCore
  dsimp only
  exact ⟨ledLike_setBrightness (ledLike_refl led) _, fun e he => mem_pushHw_le he⟩

/-- The blink body only writes clamped duty values. -/
theorem simpleBlinkCore_ledLike (i j now : Nat) (led : LED) (st : ProgramState)
    (hw : List HwEntry) (rng : Rng) :
    ledLike led (simpleBlinkCore i j now led st hw rng).led ∧
    ∀ e ∈ (simpleBlinkCore i j now led st hw rng).hw, e ∈ hw ∨ e.2.2 ≤ 4095 := by
  unfold simpleBlinkCore
  dsimp only
  exact ⟨ledLike_setBrightness (ledLike_refl led) _, fun e he => mem_pushHw_le he⟩

/-- The TV-flicker body only writes clamped duty values. -/
theorem tvFlickerCore_ledLike (i j now : Nat) (led : LED) (st : ProgramState)
    (hw : List HwEntry) (rng : Rng) :
    ledLike led (tvFlickerCore i j now led st hw rng).led ∧
    ∀ e ∈ (tvFlickerCore i j now led st hw rng).hw, e ∈ hw ∨ e.2.2 ≤ 4095 := by
  unfold tvFlickerCore
  dsimp only
  split
  · exact ⟨ledLike_setBrightness (ledLike_refl led) _, fun e he => mem_pushHw_le he⟩
  · exact ⟨ledLike_refl led, fun e he => Or.inl he⟩

/-- The firebox body only writes clamped duty values. -/
theorem fireboxGlowCore_ledLike (lib : FloatLib) (i j now : Nat) (led : LED) (st : ProgramState)
    (hw : List HwEntry) (rng : Rng) :
    ledLike led (fireboxGlowCore lib i j now led st hw rng).led ∧
    ∀ e ∈ (fireboxGlowCore lib i j now led st hw rng).hw, e ∈ hw ∨ e.2.2 ≤ 4095 := by
  unfold fireboxGlowCore
  dsimp only
  exact ⟨ledLike_setBrightness (ledLike_refl led) _, fun e he => mem_pushHw_le he⟩

/-- The candle body only writes clamped duty values. -/
theorem candleFlickerCore_ledLike (i j now : Nat) (led : LED) (st : ProgramState)
    (hw : List HwEntry) (rng : Rng) :
    ledLike led (candleFlickerCore i j now led st hw rng).led ∧
    ∀ e ∈ (candleFlickerCore i j now led st hw rng).hw, e ∈ hw ∨ e.2.2 ≤ 4095 := by
  unfold candleFlickerCore
  dsimp only
  exact ⟨ledLike_setBrightness (ledLike_refl led) _, fun e he => mem_pushHw_le he⟩

/-- The crossing body only writes clamped duty values. -/
theorem frenchCrossingCore_ledLike (lib : FloatLib) (i j now : Nat) (led : LED)
    (st : ProgramState) (hw : List HwEntry) (rng : Rng) :
    ledLike led (frenchCrossingCore lib i j now led st hw rng).led ∧
    ∀ e ∈ (frenchCrossingCore lib i j now led st hw rng).hw, e ∈ hw ∨ e.2.2 ≤ 4095 := by
  unfold frenchCrossingCore
  dsimp only
  exact ⟨ledLike_setBrightness (ledLike_refl led) _, fun e he => mem_pushHw_le he⟩

/-- One `runEffect` step keeps every stored duty `≤ 4095` and pushes only
    clamped duty values to hardware. -/
theorem runEffect_duty {rate : Nat} {core : LED → ProgramState → List HwEntry → Rng → CoreOut}
    {s : Sys} {i j now : Nat}
    (hcore : ∀ led st hw rng, ledLike led (core led st hw rng).led ∧
      ∀ e ∈ (core led st hw rng).hw, e ∈ hw ∨ e.2.2 ≤ 4095)
    (hmm : ∀ i' j' l, s.mm.getLED i' j' = some l → l.brightness ≤ 4095) :
    (∀ i' j' l, (runEffect rate core s i j now).mm.getLED i' j' = some l →
      l.brightness ≤ 4095) ∧
    (∀ e ∈ (runEffect rate core s i j now).hw, e ∈ s.hw ∨ e.2.2 ≤ 4095) := by
  unfold runEffect
  split
  · exact ⟨hmm, fun e he => Or.inl he⟩
  next led hled =>
    split
    · exact ⟨hmm, fun e he => Or.inl he⟩
    next st hst =>
      split
      · exact ⟨hmm, fun e he => Or.inl he⟩
      · dsimp only
        constructor
        · intro i' j' l hl
          rcases getLED_setLED_cases hl with h | h
          · subst h
            show (core led st s.hw s.rng).led.brightness ≤ 4095
            exact ledLike_brightness_le (hcore led st s.hw s.rng).1 (hmm i j led hled)
          · exact hmm i' j' l h
        · exact (hcore led st s.hw s.rng).2

/-- One dispatcher step keeps every stored duty `≤ 4095` and pushes only
    clamped duty values. -/
theorem updateLed_duty (lib : FloatLib) (s : Sys) (i j now : Nat)
    (hmm : ∀ i' j' l, s.mm.getLED i' j' = some l → l.brightness ≤ 4095) :
    (∀ i' j' l, (updateLed lib s i j now).mm.getLED i' j' = some l → l.brightness ≤ 4095) ∧
    (∀ e ∈ (updateLed lib s i j now).hw, e ∈ s.hw ∨ e.2.2 ≤ 4095) := by
  unfold updateLed
  split
  · exact ⟨hmm, fun e he => Or.inl he⟩
  · split
    · split <;>
        (try simp only [update_welding_program, update_heartbeat_program, update_breathing_program,
          update_simple_blink_program, update_tv_flicker_program, update_firebox_glow_program,
          update_candle_flicker_program, update_french_crossing_program]) <;>
        first
          | exact ⟨hmm, fun e he => Or.inl he⟩
          | exact runEffect_duty (weldingCore_ledLike i j now) hmm
          | exact runEffect_duty (heartbeatCore_ledLike i j now) hmm
          | exact runEffect_duty (breathingCore_ledLike lib i j now) hmm
          | exact runEffect_duty (simpleBlinkCore_ledLike i j now) hmm
          | exact runEffect_duty (tvFlickerCore_ledLike i j now) hmm
          | exact runEffect_duty (fireboxGlowCore_ledLike lib i j now) hmm
          | exact runEffect_duty (candleFlickerCore_ledLike i j now) hmm
          | exact runEffect_duty (frenchCrossingCore_ledLike lib i j now) hmm
    · exact ⟨hmm, fun e he => Or.inl he⟩

/-- **C1**: for every channel and every `update(now)` tick, and for every
    brightness write performed by any of the eight effect algorithms, the duty
    value stored in the channel and every duty value pushed to the
    hardware-apply operation lie in `[0, 4095]` (the lower bound is inherent:
    duty values are unsigned).  Stated as preservation: if every stored duty
    was in range before the tick, then after `update(now)` every stored duty
    still is, and every entry added to the hardware trace is in range. -/
theorem C1_duty_values_clamped (lib : FloatLib) (s : Sys) (now : Nat)
    (hmm : ∀ i j led, s.mm.getLED i j = some led → led.brightness ≤ 4095) :
    (∀ i j led, (ProgramManager.update lib s now).mm.getLED i j = some led →
      led.brightness ≤ 4095) ∧
    (∀ e ∈ (ProgramManager.update lib s now).hw, e ∈ s.hw ∨ e.2.2 ≤ 4095) := by
  unfold ProgramManager.update
  refine foldl_preserve
    (fun a : Sys => (∀ i j led, a.mm.getLED i j = some led → led.brightness ≤ 4095) ∧
      (∀ e ∈ a.hw, e ∈ s.hw ∨ e.2.2 ≤ 4095)) ?_ ⟨hmm, fun e he => Or.inl he⟩
  intro a i ha
  split
  · exact ha
  · refine foldl_preserve
      (fun a : Sys => (∀ i j led, a.mm.getLED i j = some led → led.brightness ≤ 4095) ∧
        (∀ e ∈ a.hw, e ∈ s.hw ∨ e.2.2 ≤ 4095)) ?_ ha
    intro a2 jj ha2
    have h := updateLed_duty lib a2 i jj now ha2.1
    refine ⟨h.1, fun e he => ?_⟩
    rcases h.2 e he with h' | h'
    · exact ha2.2 e h'
    · exact Or.inr h'

/-- Witness for C1 at a concrete one-channel system. -/
theorem C1_witness :
    (∀ i j led, (ProgramManager.update lib0 sysC9 1000).mm.getLED i j = some led →
      led.brightness ≤ 4095) ∧
    (∀ e ∈ (ProgramManager.update lib0 sysC9 1000).hw, e ∈ sysC9.hw ∨ e.2.2 ≤ 4095) :=
  C1_duty_values_clamped lib0 sysC9 1000
    (fun i j led h => by
      match i, j with
      | 0, 0 =>
        have he : led = ledC9 := (Option.some.inj h).symm
        subst he
        decide
      | 0, Nat.succ j =>
        exact absurd h (by
          simp [sysC9, ledC9, ModuleManager.getLED, ModuleManager.getModule,
            PCA9685Module.getLED])
      | Nat.succ i, j =>
        exact absurd h (by
          simp [sysC9, ledC9, ModuleManager.getLED, ModuleManager.getModule,
            PCA9685Module.getLED]))

/-! ## Single-channel evaluation helpers -/

theorem LED.setBrightness_eq (l : LED) {b : Nat} (h : b ≤ 4095) :
    (l.setBrightness b).brightness = b := by
  unfold LED.setBrightness LED.MAX_BRIGHTNESS
  rw [if_neg (by omega)]

/-- On a one-module, one-channel registry, an `update` tick is exactly one
    dispatcher step on channel `(0, 0)`. -/
theorem update_one (lib : FloatLib) (l : LED) (hw : List HwEntry) (rng : Rng) (now : Nat) :
    ProgramManager.update lib (oneChannelSys l hw rng) now =
      updateLed lib (oneChannelSys l hw rng) 0 0 now := rfl

/-- Duty of the single channel after one non-throttled effect tick. -/
theorem duty00_runEffect {rate : Nat} {core : LED → ProgramState → List HwEntry → Rng → CoreOut}
    {l : LED} {st : ProgramState} {hw : List HwEntry} {rng : Rng} {now : Nat}
    (hstEq : l.program_state = some st)
    (hth : ¬ usub32 now st.last_update < rate) :
    duty00 (runEffect rate core (oneChannelSys l hw rng) 0 0 now) =
      (core l st hw rng).led.brightness := by
  have hled : (oneChannelSys l hw rng).mm.getLED 0 0 = some l := rfl
  have h := @runEffect_run rate core (oneChannelSys l hw rng) 0 0 now l st hled hstEq hth
  unfold duty00
  rw [h.1, getLED_setLED_self _ hled]
  rfl

/-- The heartbeat body with an anchored cycle: duty by phase window. -/
theorem heartbeatCore_brightness (i j now : Nat) (led : LED) (st : ProgramState)
    (hw : List HwEntry) (rng : Rng) (h0 : ¬ st.start_time = 0) :
    (heartbeatCore i j now led st hw rng).led =
      led.setBrightness (
        if usub32 now st.start_time % HEARTBEAT_CYCLE_DURATION < HEARTBEAT_BEAT1_DURATION
        then HEARTBEAT_INTENSITY
        else if usub32 now st.start_time % HEARTBEAT_CYCLE_DURATION <
            HEARTBEAT_BEAT1_DURATION + HEARTBEAT_PAUSE1_DURATION then 0
        else if usub32 now st.start_time % HEARTBEAT_CYCLE_DURATION <
            HEARTBEAT_BEAT1_DURATION + HEARTBEAT_PAUSE1_DURATION + HEARTBEAT_BEAT2_DURATION
        then qToU16 ((HEARTBEAT_INTENSITY : ℚ) * (6/10))
        else 0) := by
  unfold heartbeatCore
  dsimp only
  rw [if_neg h0]

/-! ## C10: heartbeat timing windows -/

/-- On the one-channel heartbeat system, `update` is one heartbeat tick. -/
theorem update_heartbeat_single (lib : FloatLib) (st : ProgramState) (hw : List HwEntry)
    (rng : Rng) (now : Nat) :
    ProgramManager.update lib (oneChannelSys (heartbeatLED st) hw rng) now =
      runEffect 20 (heartbeatCore 0 0 now) (oneChannelSys (heartbeatLED st) hw rng) 0 0 now := rfl

/-- **C10**: for a channel running Heartbeat with cycle anchor
    `start_time = T` (a real anchor, `T ≠ 0`, not near the 32-bit wrap; the
    state is ready for an update, `last_update = 0`): `update(T+50)` writes the
    full beat intensity `HEARTBEAT_INTENSITY = 3500`; `update(T+150)` writes
    `0`; `update(T+220)` writes 60% of the full beat intensity, i.e.
    `3500 * 0.6 = 2100`; and `update(T+500)` writes `0`. -/
theorem C10_heartbeat_windows (lib : FloatLib) (T : Nat) (st : ProgramState)
    (hw : List HwEntry) (rng : Rng)
    (hT0 : 0 < T) (hTU : T + 500 < U32) (hst : st.start_time = T) (hlu : st.last_update = 0) :
    duty00 (ProgramManager.update lib (oneChannelSys (heartbeatLED st) hw rng) (T + 50)) =
      HEARTBEAT_INTENSITY ∧
    duty00 (ProgramManager.update lib (oneChannelSys (heartbeatLED st) hw rng) (T + 150)) = 0 ∧
    duty00 (ProgramManager.update lib (oneChannelSys (heartbeatLED st) hw rng) (T + 220)) =
      qToU16 ((HEARTBEAT_INTENSITY : ℚ) * (6/10)) ∧
    qToU16 ((HEARTBEAT_INTENSITY : ℚ) * (6/10)) = 2100 ∧
    duty00 (ProgramManager.update lib (oneChannelSys (heartbeatLED st) hw rng) (T + 500)) = 0 := by
  have hq : qToU16 ((HEARTBEAT_INTENSITY : ℚ) * (6/10)) = 2100 := by
    norm_num [qToU16, HEARTBEAT_INTENSITY]
    rfl
  have hU : U32 = 4294967296 := rfl
  have main : ∀ k : Nat, 20 ≤ k → k ≤ 500 →
      duty00 (ProgramManager.update lib (oneChannelSys (heartbeatLED st) hw rng) (T + k)) =
        if k % HEARTBEAT_CYCLE_DURATION < HEARTBEAT_BEAT1_DURATION then HEARTBEAT_INTENSITY
        else if k % HEARTBEAT_CYCLE_DURATION <
            HEARTBEAT_BEAT1_DURATION + HEARTBEAT_PAUSE1_DURATION then 0
        else if k % HEARTBEAT_CYCLE_DURATION <
            HEARTBEAT_BEAT1_DURATION + HEARTBEAT_PAUSE1_DURATION + HEARTBEAT_BEAT2_DURATION
        then qToU16 ((HEARTBEAT_INTENSITY : ℚ) * (6/10))
        else 0 := by
    intro k h1 h2
    have hth : ¬ usub32 (T + k) st.last_update < 20 := by
      rw [hlu]
      unfold usub32 u32 U32
      rw [hU] at hTU
      omega
    rw [update_heartbeat_single]
    rw [duty00_runEffect rfl hth]
    rw [heartbeatCore_brightness 0 0 (T + k) (heartbeatLED st) st hw rng (by omega)]
    rw [hst, usub32_add T k (by omega)]
    split_ifs with c1 c2 c3
    · exact LED.setBrightness_eq _ (by norm_num [HEARTBEAT_INTENSITY])
    · exact LED.setBrightness_eq _ (by norm_num)
    · rw [LED.setBrightness_eq _ (by rw [hq]; norm_num)]
    · exact LED.setBrightness_eq _ (by norm_num)
  refine ⟨?_, ?_, ?_, hq, ?_⟩
  · rw [main 50 (by norm_num) (by norm_num)]
    norm_num [HEARTBEAT_CYCLE_DURATION, HEARTBEAT_BEAT1_DURATION]
  · rw [main 150 (by norm_num) (by norm_num)]
    norm_num [HEARTBEAT_CYCLE_DURATION, HEARTBEAT_BEAT1_DURATION, HEARTBEAT_PAUSE1_DURATION]
  · rw [main 220 (by norm_num) (by norm_num)]
    norm_num [HEARTBEAT_CYCLE_DURATION, HEARTBEAT_BEAT1_DURATION, HEARTBEAT_PAUSE1_DURATION,
      HEARTBEAT_BEAT2_DURATION]
  · rw [main 500 (by norm_num) (by norm_num)]
    norm_num [HEARTBEAT_CYCLE_DURATION, HEARTBEAT_BEAT1_DURATION, HEARTBEAT_PAUSE1_DURATION,
      HEARTBEAT_BEAT2_DURATION]

/-- Witness for C10 at the concrete anchor `T = 1`. -/
theorem C10_witness :
    duty00 (ProgramManager.update lib0
      (oneChannelSys (heartbeatLED { start_time := 1 }) [] rng0) (1 + 50)) =
      HEARTBEAT_INTENSITY ∧
    duty00 (ProgramManager.update lib0
      (oneChannelSys (heartbeatLED { start_time := 1 }) [] rng0) (1 + 150)) = 0 ∧
    duty00 (ProgramManager.update lib0
      (oneChannelSys (heartbeatLED { start_time := 1 }) [] rng0) (1 + 220)) =
      qToU16 ((HEARTBEAT_INTENSITY : ℚ) * (6/10)) ∧
    qToU16 ((HEARTBEAT_INTENSITY : ℚ) * (6/10)) = 2100 ∧
    duty00 (ProgramManager.update lib0
      (oneChannelSys (heartbeatLED { start_time := 1 }) [] rng0) (1 + 500)) = 0 :=
  C10_heartbeat_windows lib0 1 { start_time := 1 } [] rng0 (by norm_num)
    (by norm_num [U32]) rfl rfl

/-! ## C3: SimpleBlink re-assignment resets the cycle anchor -/

theorem usub32_u32_add (a k : Nat) (hk : k < U32) : usub32 (a + k) (u32 a) = k := by
  unfold usub32 u32 U32 at *
  omega

/-- The blink body with an anchored cycle: duty by half-cycle. -/
theorem simpleBlinkCore_brightness (i j now : Nat) (led : LED) (st : ProgramState)
    (hw : List HwEntry) (rng : Rng) (h0 : ¬ st.start_time = 0) :
    (simpleBlinkCore i j now led st hw rng).led =
      led.setBrightness (
        if usub32 now st.start_time % (SIMPLE_BLINK_ON_DURATION + SIMPLE_BLINK_OFF_DURATION) <
            SIMPLE_BLINK_ON_DURATION
        then SIMPLE_BLINK_INTENSITY else 0) := by
  unfold simpleBlinkCore
  dsimp only
  rw [if_neg h0]

/-- On the one-channel blink system, `update` is one blink tick. -/
theorem update_blink_single (lib : FloatLib) (st : ProgramState) (hw : List HwEntry)
    (rng : Rng) (now : Nat) :
    ProgramManager.update lib (oneChannelSys (blinkLED st) hw rng) now =
      runEffect 50 (simpleBlinkCore 0 0 now) (oneChannelSys (blinkLED st) hw rng) 0 0 now := rfl

/-- **C3, counterexample**: the claim's concrete scenario, traced through the
    code.  Assign SimpleBlink at 1000 ms; `update` at 2250 ms (1250 ms after
    the anchor) writes duty 0 — as the claim says.  Re-assign SimpleBlink at
    5000 ms; `update` at 6250 ms (1250 ms after the *new* anchor) again writes
    duty 0, not 4095 as the claim asserts: 1250 ms lies in the OFF half of the
    2000 ms cycle relative to any fresh anchor. -/
theorem C3_counterexample :
    duty00 c3sysB = 0 ∧ duty00 c3sysD = 0 ∧ duty00 c3sysD ≠ 4095 :=
  ⟨rfl, rfl, by decide⟩

/-- **C3 (amended)**: re-assigning the same kind resets the cycle anchor.
    Assigning `SimpleBlink` at time `T` — whether the channel was fresh or
    already running a program — stores a fresh runtime state anchored at
    `start_time = T` and returns success; `update` at `T + 1250` then writes
    duty `0` (1250 ms is in the OFF half of the 2000 ms cycle relative to the
    new anchor).  This holds for the first assignment and for every
    re-assignment alike; the claim's expected `4095` for the re-assignment
    case is corrected to `0`. -/
theorem C3_amended_reassign_resets_anchor (lib : FloatLib) (led0 : LED) (hw : List HwEntry)
    (rng rng2 : Rng) (T : Nat) (hT0 : 0 < T) (hTU : T + 1250 < U32) :
    assign_program ⟨[⟨[led0]⟩]⟩ rng2 0 0 PROGRAM_SIMPLE_BLINK T =
      (true, ⟨[⟨[{ led0 with
                   program_type := PROGRAM_SIMPLE_BLINK,
                   program_state := some (blinkStateOf T) }]⟩]⟩, rng2) ∧
    (blinkStateOf T).start_time = u32 T ∧
    duty00 (ProgramManager.update lib (oneChannelSys (blinkLED (blinkStateOf T)) hw rng)
      (T + 1250)) = 0 := by
  refine ⟨rfl, rfl, ?_⟩
  have hU : U32 = 4294967296 := rfl
  have hth : ¬ usub32 (T + 1250) (blinkStateOf T).last_update < 50 := by
    show ¬ usub32 (T + 1250) 0 < 50
    unfold usub32 u32 U32
    rw [hU] at hTU
    omega
  rw [update_blink_single]
  rw [duty00_runEffect rfl hth]
  rw [simpleBlinkCore_brightness 0 0 (T + 1250) (blinkLED (blinkStateOf T)) (blinkStateOf T)
    hw rng (by
      show ¬ u32 T = 0
      unfold u32 U32
      rw [hU] at hTU
      omega)]
  rw [show (blinkStateOf T).start_time = u32 T from rfl]
  rw [usub32_u32_add T 1250 (by rw [hU]; omega)]
  norm_num [SIMPLE_BLINK_ON_DURATION, SIMPLE_BLINK_OFF_DURATION]
  exact LED.setBrightness_eq _ (by norm_num)

/-- Witness for the amended C3 at `T = 1000`. -/
theorem C3_amended_witness :
    assign_program ⟨[⟨[{ enabled := true }]⟩]⟩ rng0 0 0 PROGRAM_SIMPLE_BLINK 1000 =
      (true, ⟨[⟨[{ (({ enabled := true } : LED)) with
                   program_type := PROGRAM_SIMPLE_BLINK,
                   program_state := some (blinkStateOf 1000) }]⟩]⟩, rng0) ∧
    (blinkStateOf 1000).start_time = u32 1000 ∧
    duty00 (ProgramManager.update lib0 (oneChannelSys (blinkLED (blinkStateOf 1000)) [] rng0)
      (1000 + 1250)) = 0 :=
  C3_amended_reassign_resets_anchor lib0 { enabled := true } [] rng0 rng0 1000
    (by norm_num) (by norm_num [U32])

/-! ## C4: FrenchCrossing cool-down -/

/-- After a crossing tick whose stored phase is OFF (`current_phase = 0`), the
    duty written is `0`: within the cool-down window the code computes
    `FRENCH_CROSSING_WARMUP_MIN * exp(-2·progress)` with
    `FRENCH_CROSSING_WARMUP_MIN = 0`, and past the window it writes `0`. -/
theorem frenchCrossingCore_off_phase (lib : FloatLib) (i j now : Nat) (led : LED)
    (st : ProgramState) (hw : List HwEntry) (rng : Rng)
    (hoff : getParam (frenchCrossingCore lib i j now led st hw rng).st.parameters
      "current_phase" = 0) :
    (frenchCrossingCore lib i j now led st hw rng).led.brightness = 0 := by
  unfold frenchCrossingCore at hoff ⊢
  dsimp only at hoff ⊢
  split_ifs at hoff ⊢ <;>
    (try dsimp only at *) <;>
    (try simp only [getParam_setParam_self] at *) <;>
    first
      | contradiction
      | (exfalso; omega)
      | exact LED.setBrightness_eq _ (by norm_num)
      | norm_num [FRENCH_CROSSING_WARMUP_MIN, qToU16, LED.setBrightness, LED.MAX_BRIGHTNESS]

/-- On the one-channel crossing system, `update` is one crossing tick. -/
theorem update_crossing_single (lib : FloatLib) (st : ProgramState) (hw : List HwEntry)
    (rng : Rng) (now : Nat) :
    ProgramManager.update lib (oneChannelSys (crossingLED st) hw rng) now =
      runEffect 10 (frenchCrossingCore lib 0 0 now)
        (oneChannelSys (crossingLED st) hw rng) 0 0 now := rfl

/-- **C4, counterexample**: a crossing channel whose tick enters the OFF half
    (cycle time 500 of 1000, phase transition detected, `phase_time = 0`).
    The code writes duty `0` — `FRENCH_CROSSING_WARMUP_MIN * exp(0)` with
    `FRENCH_CROSSING_WARMUP_MIN = 0` — while the claimed curve, the
    exponential cool-down scaled from the intensity at phase start (the
    hold-phase maximum 4095; `exp(0) = 1`), gives `4095`. -/
theorem C4_counterexample :
    duty00 (ProgramManager.update libExp1 (oneChannelSys (crossingLED c4st) [] rng0) 501) = 0 ∧
    frenchCrossingCooldownSpec libExp1 FRENCH_CROSSING_MAX_INTENSITY 0 = 4095 ∧
    (0 : Nat) ≠ 4095 := by
  refine ⟨?_, ?_, by decide⟩
  · rw [update_crossing_single, duty00_runEffect rfl (by decide)]
    exact frenchCrossingCore_off_phase libExp1 0 0 501 (crossingLED c4st) c4st [] rng0 rfl
  · unfold frenchCrossingCooldownSpec libExp1
    norm_num [qToU16, FRENCH_CROSSING_MAX_INTENSITY]
    rfl

/-- **C4 (amended)**: for a channel running FrenchCrossing, on every
    non-throttled tick the written duty never exceeds 4095; and whenever the
    tick ends in the OFF half (stored `current_phase = 0`) the written duty is
    exactly `0` — the cool-down expression multiplies the exponential decay
    `e^(−2·progress)` by `FRENCH_CROSSING_WARMUP_MIN = 0`, so the duty is 0
    throughout the cool-down window (in particular it has reached 0 by
    cool-down completion), not a curve scaled from the intensity at phase
    start. -/
theorem C4_amended_cooldown_zero (lib : FloatLib) (st : ProgramState) (hw : List HwEntry)
    (rng : Rng) (now : Nat) (hth : ¬ usub32 now st.last_update < 10) :
    ∃ led' st',
      (ProgramManager.update lib (oneChannelSys (crossingLED st) hw rng) now).mm.getLED 0 0 =
        some led' ∧
      led'.program_state = some st' ∧
      led'.brightness ≤ 4095 ∧
      (getParam st'.parameters "current_phase" = 0 → led'.brightness = 0) := by
  have hled : (oneChannelSys (crossingLED st) hw rng).mm.getLED 0 0 = some (crossingLED st) := rfl
  have h := @runEffect_run 10 (frenchCrossingCore lib 0 0 now)
    (oneChannelSys (crossingLED st) hw rng) 0 0 now (crossingLED st) st hled rfl hth
  refine ⟨writeBackLED (frenchCrossingCore lib 0 0 now (crossingLED st) st hw rng) now,
    { (frenchCrossingCore lib 0 0 now (crossingLED st) st hw rng).st with
      last_update := u32 now }, ?_, rfl, ?_, ?_⟩
  · rw [update_crossing_single, h.1, getLED_setLED_self _ hled]
    rfl
  · show (frenchCrossingCore lib 0 0 now (crossingLED st) st hw rng).led.brightness ≤ 4095
    exact ledLike_brightness_le
      (frenchCrossingCore_ledLike lib 0 0 now (crossingLED st) st hw rng).1 (Nat.zero_le _)
  · intro h0
    show (frenchCrossingCore lib 0 0 now (crossingLED st) st hw rng).led.brightness = 0
    exact frenchCrossingCore_off_phase lib 0 0 now (crossingLED st) st hw rng h0

/-- Witness for the amended C4 at the concrete OFF-transition tick. -/
theorem C4_amended_witness :
    ∃ led' st',
      (ProgramManager.update lib0 (oneChannelSys (crossingLED c4st) [] rng0) 501).mm.getLED 0 0 =
        some led' ∧
      led'.program_state = some st' ∧
      led'.brightness ≤ 4095 ∧
      (getParam st'.parameters "current_phase" = 0 → led'.brightness = 0) :=
  C4_amended_cooldown_zero lib0 c4st [] rng0 501 (by decide)

/-! ## C2: the kind/state invariant -/

theorem mmInv_setLED {mm : ModuleManager} {i j : Nat} {l : LED}
    (hinv : mmInv mm) (hl : ledInv l) : mmInv (mm.setLED i j l) := by
  intro i' j' l' h
  rcases getLED_setLED_cases h with h | h
  · subst h
    exact hl
  · exact hinv i' j' l' h

/-- `unassign_program` leaves every channel satisfying the kind/state invariant. -/
theorem unassign_preserves_inv (mm : ModuleManager) (b c : Nat) (hinv : mmInv mm) :
    mmInv (unassign_program mm b c).2 := by
  unfold unassign_program
  split
  · exact hinv
  · split
    · exact hinv
    · split
      · exact hinv
      next led hled =>
        dsimp only
        apply mmInv_setLED hinv
        by_cases hs : led.program_state = none
        · simp [LED.setProgram, ledInv, hs]
        · simp [LED.setProgram, ledInv, hs]

/-- `initialize_led_state` leaves every channel satisfying the invariant. -/
theorem init_led_state_preserves_inv (mm : ModuleManager) (rng : Rng) (b c now : Nat)
    (hinv : mmInv mm) : mmInv (init_led_state mm rng b c now).2.1 := by
  unfold init_led_state
  split
  · exact hinv
  · split
    · exact hinv
    · split
      · exact hinv
      next led hled =>
        split
        · exact hinv
        next st hst =>
          have hty : led.program_type ≠ PROGRAM_NONE := by
            intro h0
            have h1 := (hinv b c led hled).mp h0
            rw [hst] at h1
            exact absurd h1 (by simp)
          split
          all_goals
            first
              | exact hinv
              | (apply mmInv_setLED hinv
                 simp [ledInv, hty])

/-- `assign_program` leaves every channel satisfying the invariant. -/
theorem assign_preserves_inv (mm : ModuleManager) (rng : Rng) (b c : Nat) (k : ProgramType)
    (now : Nat) (hinv : mmInv mm) : mmInv (assign_program mm rng b c k now).2.1 := by
  unfold assign_program
  split
  · exact hinv
  · split
    · exact hinv
    · split
      · exact hinv
      next led hled =>
        split
        · dsimp only
          exact unassign_preserves_inv mm b c hinv
        next hk =>
          dsimp only
          apply init_led_state_preserves_inv _ rng b c now
          apply mmInv_setLED hinv
          simp [LED.setProgram, ledInv, hk]

/-- `runEffect` leaves every channel satisfying the invariant, provided the
    core only changes the LED through `setBrightness` and the dispatched
    channel has a program assigned. -/
theorem runEffect_preserves_inv {rate : Nat}
    {core : LED → ProgramState → List HwEntry → Rng → CoreOut} {s : Sys} {i j now : Nat}
    (hcore : ∀ led st hw rng, ledLike led (core led st hw rng).led)
    (hty : ∀ led, s.mm.getLED i j = some led → led.program_type ≠ PROGRAM_NONE)
    (hinv : mmInv s.mm) : mmInv (runEffect rate core s i j now).mm := by
  unfold runEffect
  split
  · exact hinv
  next led hled =>
    split
    · exact hinv
    next st hst =>
      split
      · exact hinv
      · dsimp only
        apply mmInv_setLED hinv
        have hty' : (core led st s.hw s.rng).led.program_type ≠ PROGRAM_NONE := by
          rcases hcore led st s.hw s.rng with h | ⟨h1, _, _, _⟩
          · rw [h]
            exact hty led hled
          · rw [h1]
            exact hty led hled
        simp [writeBackLED, ledInv, hty']

/-- One dispatcher step leaves every channel satisfying the invariant. -/
theorem updateLed_preserves_inv (lib : FloatLib) (s : Sys) (i j now : Nat)
    (hinv : mmInv s.mm) : mmInv (updateLed lib s i j now).mm := by
  unfold updateLed
  split
  · exact hinv
  next led0 hled0 =>
    split
    next hg =>
      have hty : ∀ led, s.mm.getLED i j = some led → led.program_type ≠ PROGRAM_NONE := by
        intro led' hl
        rw [hled0] at hl
        rw [← Option.some.inj hl]
        exact hg.2.1
      split <;>
        (try simp only [update_welding_program, update_heartbeat_program,
          update_breathing_program, update_simple_blink_program, update_tv_flicker_program,
          update_firebox_glow_program, update_candle_flicker_program,
          update_french_crossing_program]) <;>
        first
          | exact hinv
          | exact runEffect_preserves_inv
              (fun led st hw rng => (weldingCore_ledLike i j now led st hw rng).1) hty hinv
          | exact runEffect_preserves_inv
              (fun led st hw rng => (heartbeatCore_ledLike i j now led st hw rng).1) hty hinv
          | exact runEffect_preserves_inv
              (fun led st hw rng => (breathingCore_ledLike lib i j now led st hw rng).1) hty hinv
          | exact runEffect_preserves_inv
              (fun led st hw rng => (simpleBlinkCore_ledLike i j now led st hw rng).1) hty hinv
          | exact runEffect_preserves_inv
              (fun led st hw rng => (tvFlickerCore_ledLike i j now led st hw rng).1) hty hinv
          | exact runEffect_preserves_inv
              (fun led st hw rng => (fireboxGlowCore_ledLike lib i j now led st hw rng).1) hty hinv
          | exact runEffect_preserves_inv
              (fun led st hw rng => (candleFlickerCore_ledLike i j now led st hw rng).1) hty hinv
          | exact runEffect_preserves_inv
              (fun led st hw rng => (frenchCrossingCore_ledLike lib i j now led st hw rng).1) hty hinv
    · exact hinv

/-- **C2, counterexample**: the claim also asserts the invariant after channel
    copy/assignment, but the `LED` copy constructor and assignment operator
    copy the program kind while nulling the owned runtime-state pointer, so the
    copy of a program-bearing channel violates
    `program_kind = None ⟺ runtime_state absent`. -/
theorem C2_counterexample :
    ledInv ledC2 ∧ ¬ ledInv (LED.copy ledC2) ∧ ¬ ledInv (LED.assignFrom {} ledC2) := by
  refine ⟨?_, ?_, ?_⟩ <;> simp [ledInv, ledC2, LED.copy, LED.assignFrom]

/-- **C2 (amended)**: every channel satisfies `program_kind = None ⟺
    runtime_state absent` before and after every public operation — `assign`,
    `unassign`, `update`, and the pure queries, which do not modify state.
    Channel copy/assignment, however, copies the kind while dropping the
    runtime state, so a copy of a program-bearing channel violates the
    invariant (see the counterexample). -/
theorem C2_amended_invariant_preserved (mm : ModuleManager) (hinv : mmInv mm) :
    (∀ rng b c k now, mmInv (assign_program mm rng b c k now).2.1) ∧
    (∀ b c, mmInv (unassign_program mm b c).2) ∧
    (∀ lib hw rng now, mmInv (ProgramManager.update lib ⟨mm, hw, rng⟩ now).mm) := by
  refine ⟨fun rng b c k now => assign_preserves_inv mm rng b c k now hinv,
    fun b c => unassign_preserves_inv mm b c hinv, fun lib hw rng now => ?_⟩
  unfold ProgramManager.update
  refine foldl_preserve (fun a : Sys => mmInv a.mm) ?_ hinv
  intro a i ha
  split
  · exact ha
  · refine foldl_preserve (fun a : Sys => mmInv a.mm) ?_ ha
    intro a2 jj ha2
    exact updateLed_preserves_inv lib a2 i jj now ha2

/-- Witness for the amended C2 at a concrete one-channel system. -/
theorem C2_amended_witness :
    (∀ rng b c k now, mmInv (assign_program sysC9.mm rng b c k now).2.1) ∧
    (∀ b c, mmInv (unassign_program sysC9.mm b c).2) ∧
    (∀ lib hw rng now, mmInv (ProgramManager.update lib ⟨sysC9.mm, hw, rng⟩ now).mm) :=
  C2_amended_invariant_preserved sysC9.mm
    (fun i j l h => by
      match i, j with
      | 0, 0 =>
        have he : l = ledC9 := (Option.some.inj h).symm
        subst he
        simp [ledInv, ledC9]
      | 0, Nat.succ j =>
        exact absurd h (by
          simp [sysC9, ledC9, ModuleManager.getLED, ModuleManager.getModule,
            PCA9685Module.getLED])
      | Nat.succ i, j =>
        exact absurd h (by
          simp [sysC9, ledC9, ModuleManager.getLED, ModuleManager.getModule,
            PCA9685Module.getLED]))

/-! ## C5: the shared effect epilogue -/

/-- Every effect built on the shared skeleton stores `last_update = now` on a
    valid non-throttled tick. -/
theorem setsLastUpdate_of_core (rate : Nat)
    (coreOf : Nat → Nat → Nat → LED → ProgramState → List HwEntry → Rng → CoreOut) :
    setsLastUpdate rate (fun s i j now => runEffect rate (coreOf i j now) s i j now) := by
  intro s i j now led st hled hst hth
  have h := @runEffect_run rate (coreOf i j now) s i j now led st hled hst hth
  refine ⟨writeBackLED (coreOf i j now led st s.hw s.rng) now,
    { (coreOf i j now led st s.hw s.rng).st with last_update := u32 now }, ?_, rfl, rfl⟩
  rw [h.1]
  exact getLED_setLED_self _ hled

/-- An effect whose body always ends `setBrightness` + `applyLedBrightness`
    writes the stored duty to hardware on every valid non-throttled tick. -/
theorem writesAndApplies_of_core (rate : Nat)
    (coreOf : Nat → Nat → Nat → LED → ProgramState → List HwEntry → Rng → CoreOut)
    (hpush : ∀ i j now led st hw rng, (coreOf i j now led st hw rng).hw =
      pushHw hw i j (coreOf i j now led st hw rng).led) :
    writesAndApplies rate (fun s i j now => runEffect rate (coreOf i j now) s i j now) := by
  intro s i j now led st hled hst hth
  have h := @runEffect_run rate (coreOf i j now) s i j now led st hled hst hth
  refine ⟨writeBackLED (coreOf i j now led st s.hw s.rng) now, ?_, ?_⟩
  · rw [h.1]
    exact getLED_setLED_self _ hled
  · rw [h.2.1, hpush]
    rfl

/-- **C5, counterexample**: an idle welding tick (no flash active,
    `next_event` still in the future) that is *not* throttled away: the claim
    says every such tick writes a computed duty and invokes the
    hardware-apply operation, but the code leaves the duty untouched and
    pushes nothing to hardware (it only stores `last_update`). -/
theorem C5_counterexample :
    ¬ usub32 500 c5st.last_update < 10 ∧
    (ProgramManager.update lib0 (oneChannelSys (weldingLED c5st) [] rng0) 500).hw = [] ∧
    duty00 (ProgramManager.update lib0 (oneChannelSys (weldingLED c5st) [] rng0) 500) =
      (weldingLED c5st).brightness :=
  ⟨by decide, rfl, rfl⟩

/-- **C5 (amended)**: on every valid tick not throttled by the effect's
    refresh rate, every one of the eight effect algorithms stores
    `last_update = now`; the six effects whose body unconditionally ends in a
    brightness write (heartbeat, breathing, simple-blink, firebox, candle,
    crossing) also write a computed duty into the channel and invoke the
    hardware-apply operation with exactly that stored duty.  Welding and
    TV-flicker may leave the duty and the hardware untouched on idle ticks
    (see the counterexample). -/
theorem C5_amended_effect_epilogue (lib : FloatLib) :
    setsLastUpdate 10 update_welding_program ∧
    setsLastUpdate 20 update_heartbeat_program ∧
    setsLastUpdate 20 (update_breathing_program lib) ∧
    setsLastUpdate 50 update_simple_blink_program ∧
    setsLastUpdate 20 update_tv_flicker_program ∧
    setsLastUpdate 20 (update_firebox_glow_program lib) ∧
    setsLastUpdate 25 update_candle_flicker_program ∧
    setsLastUpdate 10 (update_french_crossing_program lib) ∧
    writesAndApplies 20 update_heartbeat_program ∧
    writesAndApplies 20 (update_breathing_program lib) ∧
    writesAndApplies 50 update_simple_blink_program ∧
    writesAndApplies 20 (update_firebox_glow_program lib) ∧
    writesAndApplies 25 update_candle_flicker_program ∧
    writesAndApplies 10 (update_french_crossing_program lib) :=
  ⟨setsLastUpdate_of_core 10 weldingCore,
   setsLastUpdate_of_core 20 heartbeatCore,
   setsLastUpdate_of_core 20 (breathingCore lib),
   setsLastUpdate_of_core 50 simpleBlinkCore,
   setsLastUpdate_of_core 20 tvFlickerCore,
   setsLastUpdate_of_core 20 (fireboxGlowCore lib),
   setsLastUpdate_of_core 25 candleFlickerCore,
   setsLastUpdate_of_core 10 (frenchCrossingCore lib),
   writesAndApplies_of_core 20 heartbeatCore (fun _ _ _ _ _ _ _ => rfl),
   writesAndApplies_of_core 20 (breathingCore lib) (fun _ _ _ _ _ _ _ => rfl),
   writesAndApplies_of_core 50 simpleBlinkCore (fun _ _ _ _ _ _ _ => rfl),
   writesAndApplies_of_core 20 (fireboxGlowCore lib) (fun _ _ _ _ _ _ _ => rfl),
   writesAndApplies_of_core 25 candleFlickerCore (fun _ _ _ _ _ _ _ => rfl),
   writesAndApplies_of_core 10 (frenchCrossingCore lib) (fun _ _ _ _ _ _ _ => rfl)⟩

/-- Witness for the amended C5: the heartbeat conjunct applied at a concrete
    tick. -/
theorem C5_amended_witness :
    ∃ led', (update_heartbeat_program
        (oneChannelSys (heartbeatLED { start_time := 1 }) [] rng0) 0 0 51).mm.getLED 0 0 =
      some led' ∧
      (update_heartbeat_program
        (oneChannelSys (heartbeatLED { start_time := 1 }) [] rng0) 0 0 51).hw =
      [] ++ [(0, 0, led'.brightness)] :=
  (C5_amended_effect_epilogue lib0).2.2.2.2.2.2.2.2.1
    (oneChannelSys (heartbeatLED { start_time := 1 }) [] rng0) 0 0 51
    (heartbeatLED { start_time := 1 }) { start_time := 1 } rfl rfl (by decide)

/-! ## C6: welding near-peak jitter -/

/-- On the one-channel welding system, `update` is one welding tick. -/
theorem update_welding_single (lib : FloatLib) (st : ProgramState) (hw : List HwEntry)
    (rng : Rng) (now : Nat) :
    ProgramManager.update lib (oneChannelSys (weldingLED st) hw rng) now =
      runEffect 10 (weldingCore 0 0 now) (oneChannelSys (weldingLED st) hw rng) 0 0 now := rfl

/-- **C6** (code-bug evaluation): a welding flash triggers with peak intensity
    3000 and the hold-phase jitter draw is `random(-200, 201) = -200`.  The
    comment and the claim call for a near-peak duty (`3000 - 200 = 2800`),
    but `uint16_t variation` wraps the negative draw to 65336, so
    `constrain(3000 + 65336, 0, 4095)` clamps to 4095: the code pushes the
    trigger value 3000 and then full-scale 4095, not a near-peak value.
    (Every sibling effect declares the same draw as `int16_t`.) -/
theorem C6_welding_jitter_wraps_to_max :
    duty00 (ProgramManager.update lib0 (oneChannelSys (weldingLED c6st) [] rngC6) 100) = 4095 ∧
    (ProgramManager.update lib0 (oneChannelSys (weldingLED c6st) [] rngC6) 100).hw =
      [(0, 0, 3000), (0, 0, 4095)] := by
  have h := @runEffect_run 10 (weldingCore 0 0 100)
    (oneChannelSys (weldingLED c6st) [] rngC6) 0 0 100 (weldingLED c6st) c6st rfl rfl (by decide)
  constructor
  · rw [update_welding_single, duty00_runEffect rfl (by decide)]
    unfold weldingCore
    norm_num [c6st, weldingLED, oneChannelSys, Rng.next, rngC6, toU16, constrain, usub32, u32,
      uadd32, U32, pushHw, LED.setBrightness, LED.MAX_BRIGHTNESS, WELDING_MIN_INTENSITY,
      WELDING_MAX_INTENSITY, WELDING_MIN_DURATION, WELDING_MAX_DURATION,
      WELDING_MIN_INTERVAL, WELDING_MAX_INTERVAL]
    rfl
  · rw [update_welding_single, h.2.1]
    unfold weldingCore
    norm_num [c6st, weldingLED, oneChannelSys, Rng.next, rngC6, toU16, constrain, usub32, u32,
      uadd32, U32, pushHw, LED.setBrightness, LED.MAX_BRIGHTNESS, WELDING_MIN_INTENSITY,
      WELDING_MAX_INTENSITY, WELDING_MIN_DURATION, WELDING_MAX_DURATION,
      WELDING_MIN_INTERVAL, WELDING_MAX_INTERVAL]
    exact ⟨rfl, rfl⟩

end LightControl
